import Mathlib

/-!
Verification of the chip8vm CHIP-8 virtual machine core against its
natural-language specification.

The definitions below are a shallow embedding of the C++ sources
(`cpu.cpp` / `cpu.hpp`, `memory.cpp` / `memory.hpp`, `gpu.cpp`,
`opcode.hpp`): machine integers are modelled as `Nat` with explicit
`% 2^w` wherever the C++ performs a narrowing conversion or wrapping
arithmetic; the register file, call stack, system memory, framebuffer and
keyboard latch are modelled as total maps; the unchecked `std::vector`
indexing of the `Memory` class is modelled with `Option` (an
out-of-bounds index yields `none`).  Each definition names the C++
entity it embeds.
-/

set_option maxRecDepth 100000

namespace chip8

/-- Pointwise update of a total map, used to model writes to C++ arrays
and vectors (`v[a] = b`). -/
def setAt (f : Nat → Nat) (a v : Nat) : Nat → Nat :=
  fun b => if b = a then v else f b

/-- `uint32_t` modulus. -/
def UINT32_MOD : Nat := 4294967296

/-- Wrapping `uint32_t` subtraction `a - b`, as used for the elapsed-time
computations `tick_ - delayTimerTick_` in `CpuImpl::updateTimer`. -/
def u32sub (a b : Nat) : Nat :=
  (a % UINT32_MOD + (UINT32_MOD - b % UINT32_MOD)) % UINT32_MOD

/-- Wrapping `uint16_t` subtraction `a - b`, as in the `uint16_t
difference = regs_.vx[op.x] - regs_.vx[op.y]` computations of the SUB and
SUBN handlers. -/
def u16sub (a b : Nat) : Nat :=
  (a % 65536 + (65536 - b % 65536)) % 65536

namespace opcode

/-- `opcode::decodeInstruction` (opcode.hpp): canonicalise a raw opcode to
its instruction-table key.  The C++ condition `decodedOpcode == 0x5000 |
decodedOpcode == 0x8000 || decodedOpcode == 0x9000` parses as
`(dec == 0x5000) | (dec == 0x8000) || (dec == 0x9000)` because `==` binds
tighter than `|`, so the bitwise `|` of the two booleans has the same
truth value as the intended logical or. -/
def decodeInstruction (opcode : Nat) : Nat :=
  let decodedOpcode := opcode &&& 0xF000
  if decodedOpcode = 0x0000 ∨ decodedOpcode = 0xE000 ∨ decodedOpcode = 0xF000 then
    decodedOpcode ||| (opcode &&& 0x00FF)
  else if decodedOpcode = 0x5000 ∨ decodedOpcode = 0x8000 ∨ decodedOpcode = 0x9000 then
    decodedOpcode ||| (opcode &&& 0x000F)
  else
    decodedOpcode

/-- `Operand::join<X>` (opcode.hpp): `((op.x & 0xF) << 8)`. -/
def joinX (x : Nat) : Nat := (x &&& 0xF) <<< 8

/-- `Operand::join<XKK>`: `join<X>(op) | (op.kk & 0xFF)`. -/
def joinXKK (x kk : Nat) : Nat := joinX x ||| (kk &&& 0xFF)

/-- `Operand::join<XY>`: `join<X>(op) | ((op.y & 0xF) << 4)`. -/
def joinXY (x y : Nat) : Nat := joinX x ||| ((y &&& 0xF) <<< 4)

/-- `Operand::join<XYN>`: `join<XY>(op) | (op.n & 0xF)`. -/
def joinXYN (x y n : Nat) : Nat := joinXY x y ||| (n &&& 0xF)

/-- `Operand::join<NNN>`: `(op.nnn & 0xFFF)`. -/
def joinNNN (nnn : Nat) : Nat := nnn &&& 0xFFF

/-- `Operand::split<X>`: `(opcode >> 8) & 0xF`. -/
def splitX (opcode : Nat) : Nat := (opcode >>> 8) &&& 0xF

/-- `Operand::split<XKK>`: `((opcode >> 8) & 0xF, opcode & 0xFF)`. -/
def splitXKK (opcode : Nat) : Nat × Nat :=
  ((opcode >>> 8) &&& 0xF, opcode &&& 0xFF)

/-- `Operand::split<XY>`: `((opcode >> 8) & 0xF, (opcode >> 4) & 0xF)`. -/
def splitXY (opcode : Nat) : Nat × Nat :=
  ((opcode >>> 8) &&& 0xF, (opcode >>> 4) &&& 0xF)

/-- `Operand::split<XYN>`. -/
def splitXYN (opcode : Nat) : Nat × Nat × Nat :=
  ((opcode >>> 8) &&& 0xF, (opcode >>> 4) &&& 0xF, opcode &&& 0xF)

/-- `Operand::split<NNN>`: `opcode & 0xFFF`. -/
def splitNNN (opcode : Nat) : Nat := opcode &&& 0xFFF

end opcode

/-- `Memory::Endian` (memory.hpp). -/
inductive Endian where
  | BIG : Endian
  | LITTLE : Endian
deriving DecidableEq

/-- `chip8::Memory` (memory.hpp): a byte vector `memory_` of fixed size,
created as `Memory(size)`.  `data` gives the contents of the cells with
index below `size`. -/
structure Memory where
  size : Nat
  data : Nat → Nat

namespace Memory

/-- `Memory::store` (memory.cpp): `memory_[address] = byte`.  The
`std::vector` indexing is unchecked: an address at or beyond the vector
size is an out-of-bounds access (undefined behaviour), modelled as
`none`.  No masking of the address is performed. -/
def store (m : Memory) (address byte : Nat) : Option Memory :=
  if address < m.size then some ⟨m.size, chip8.setAt m.data address byte⟩ else none

/-- `Memory::load<uint8_t>` (memory.cpp): `return memory_[address]`,
again with unchecked indexing and no masking. -/
def loadByte (m : Memory) (address : Nat) : Option Nat :=
  if address < m.size then some (m.data address) else none

/-- `Memory::load<uint16_t>` (memory.cpp): big-endian read
`(memory_[address] << 8) | memory_[address + 1]`, where `address++` is
`uint16_t` arithmetic so the second index wraps at 65536. -/
def loadWord (m : Memory) (address : Nat) : Option Nat := do
  let hi ← m.loadByte address
  let lo ← m.loadByte ((address + 1) % 65536)
  pure ((hi <<< 8) ||| lo)

/-- The byte `Memory::storeBuffer(uint16_t, Words const&, Endian)` writes
at the lower of the two addresses for one buffer word:
`Endian::LITTLE` writes `(w >> 8) & 0xFF` (the high byte) there,
`Endian::BIG` writes `w & 0xFF` (the low byte) there. -/
def lowerByteOf (endian : Endian) (w : Nat) : Nat :=
  match endian with
  | Endian.LITTLE => (w >>> 8) &&& 0xFF
  | Endian.BIG => w &&& 0xFF

/-- The byte the word-buffer store writes at the higher of the two
addresses: the complement of `lowerByteOf`. -/
def upperByteOf (endian : Endian) (w : Nat) : Nat :=
  match endian with
  | Endian.LITTLE => w &&& 0xFF
  | Endian.BIG => (w >>> 8) &&& 0xFF

/-- The loop of `Memory::storeBuffer(uint16_t, Words const&, Endian)`
(memory.cpp), continued from loop counter `index`.  The target is
`uint16_t address = startAddress + 2 * index`, truncated mod 65536; the
two assignments `memory_[address] = ...; memory_[address + 1] = ...` are
the same unchecked vector writes as `Memory::store` (the second index is
computed in `int`, hence not wrapped). -/
def storeWordsFrom (m : Memory) (startAddress : Nat) (endian : Endian)
    (buffer : List Nat) (index : Nat) : Option Memory :=
  match buffer with
  | [] => some m
  | w :: rest =>
    let address := (startAddress + 2 * index) % 65536
    (m.store address (lowerByteOf endian w)).bind fun m1 =>
      (m1.store (address + 1) (upperByteOf endian w)).bind fun m2 =>
        m2.storeWordsFrom startAddress endian rest (index + 1)

/-- `Memory::storeBuffer(uint16_t, Words const&, Endian)` (memory.cpp):
the word-buffer bulk store, looping from index 0. -/
def storeBufferWords (m : Memory) (startAddress : Nat) (buffer : List Nat)
    (endian : Endian) : Option Memory :=
  m.storeWordsFrom startAddress endian buffer 0

end Memory

/-- Modelled from the spec for comparison with the code (the spec claims
all addresses are masked to 12 bits): a store that writes cell
`a & 0xFFF`.  The code's `Memory::store` does not do this. -/
def maskedStoreSpec (m : Memory) (address byte : Nat) : Memory :=
  ⟨m.size, chip8.setAt m.data (address &&& 0xFFF) byte⟩

namespace GpuImpl

/-- `Gpu::DISPLAY_WIDTH` (gpu.hpp). -/
def DISPLAY_WIDTH : Nat := 64

/-- `Gpu::DISPLAY_HEIGHT` (gpu.hpp). -/
def DISPLAY_HEIGHT : Nat := 32

/-- `GpuImpl::FRAMEBUFFER_SIZE` (gpu.hpp): one byte per pixel. -/
def FRAMEBUFFER_SIZE : Nat := DISPLAY_WIDTH * DISPLAY_HEIGHT

/-- `GpuImpl::computeLinearAddress` (gpu.cpp): wrap both coordinates
(`x &= 63`, `y &= 31`) and return `DISPLAY_WIDTH * y + x`. -/
def computeLinearAddress (x y : Nat) : Nat :=
  DISPLAY_WIDTH * (y % DISPLAY_HEIGHT) + (x % DISPLAY_WIDTH)

/-- The sprite contribution of one bit position in
`GpuImpl::drawSprite` (gpu.cpp): `(sprite[spriteIndex] & bitIndex) ? 0xFF
: 0x00` with `bitIndex = 0x80 >> bitOffset`. -/
def spriteValueAt (rowByte bitOffset : Nat) : Nat :=
  if rowByte.testBit (7 - bitOffset) then 255 else 0

/-- One iteration of the inner bit loop of `GpuImpl::drawSprite`
(gpu.cpp): XOR one framebuffer byte with the sprite contribution, record
whether the resulting byte is zero in the accumulated `erased` flag, and
store the byte back.  The operation is `(yPixel, rowByte, bitOffset)`;
`xPixel` is `uint8_t` arithmetic `x + bitOffset`. -/
def blitStep (x : Nat) (acc : (Nat → Nat) × Bool) (op : Nat × Nat × Nat) :
    (Nat → Nat) × Bool :=
  let yPixel := op.1
  let rowByte := op.2.1
  let bitOffset := op.2.2
  let xPixel := (x + bitOffset) % 256
  let address := computeLinearAddress xPixel yPixel
  let pixel := Nat.xor (acc.1 address) (spriteValueAt rowByte bitOffset)
  (chip8.setAt acc.1 address pixel, acc.2 || decide (pixel = 0))

/-- The sequence of pixel operations performed by the two nested loops of
`GpuImpl::drawSprite` (gpu.cpp), flattened in execution order: for each
sprite row (`yPixel` is `uint8_t` arithmetic `y + spriteIndex`), the
eight bit offsets 0..7 from the most significant bit down. -/
def blitOps (y : Nat) (sprite : List Nat) : List (Nat × Nat × Nat) :=
  sprite.enum.flatMap (fun rowEntry =>
    (List.range 8).map (fun bitOffset => ((y + rowEntry.1) % 256, rowEntry.2, bitOffset)))

/-- `GpuImpl::drawSprite(uint8_t x, uint8_t y, Sprite const&)` (gpu.cpp):
XOR-blit the sprite into the framebuffer and return the updated
framebuffer together with the `erased` flag.  The `uint8_t` parameter
conversions are the `% 256`. -/
def drawSprite (x y : Nat) (sprite : List Nat) (fb : Nat → Nat) :
    (Nat → Nat) × Bool :=
  (blitOps (y % 256) sprite).foldl (blitStep (x % 256)) (fb, false)

/-- `GpuImpl::clearFramebuffer` (gpu.cpp): store 0 at every framebuffer
address below the framebuffer size. -/
def clearFramebuffer (fb : Nat → Nat) : Nat → Nat :=
  fun a => if a < FRAMEBUFFER_SIZE then 0 else fb a

end GpuImpl

/-- `Cpu::RegContext` (cpu.hpp): program counter, the sixteen 8-bit
registers `vx`, stack pointer, the 16-entry return stack, the `I`
register and the two timers.  `vx` and `stack` are modelled as total
maps; only indices 0..15 correspond to the C++ arrays. -/
structure RegContext where
  pc : Nat
  vx : Nat → Nat
  sp : Nat
  stack : Nat → Nat
  i : Nat
  dt : Nat
  st : Nat

/-- The complete state mutated by `CpuImpl` (cpu.cpp): the register
context, the shared system `Memory` (modelled as a total byte map; its
unchecked bounds behaviour is analysed separately on `chip8.Memory`), the
GPU framebuffer, the keyboard latch, the last fetched opcode, the host
tick and the two timer anchors, and the random byte stream (the
`std::mt19937` plus `uniform_int_distribution` pair is abstracted as the
oracle sequence `rng` consumed at `rngIdx`). -/
structure CpuState where
  regs : RegContext
  mem : Nat → Nat
  fb : Nat → Nat
  keys : Nat → Bool
  opcode : Nat
  tick : Nat
  delayTimerTick : Nat
  soundTimerTick : Nat
  rng : Nat → Nat
  rngIdx : Nat

namespace CpuImpl

/-- `Cpu::PC_INCR` (cpu.hpp). -/
def PC_INCR : Nat := 2

/-- `Cpu::PROGRAM_START` (cpu.hpp). -/
def PROGRAM_START : Nat := 0x200

/-- `DELAY_TIMER_TICK_DURATION = 1000 / 60` (cpu.cpp), integer division,
so 16 milliseconds. -/
def DELAY_TIMER_TICK_DURATION : Nat := 1000 / 60

/-- `SOUND_TIMER_TICK_DURATION = 1000 / 60` (cpu.cpp). -/
def SOUND_TIMER_TICK_DURATION : Nat := 1000 / 60

/-- `memory_->load<uint8_t>(address)` as called by the CPU: the
`uint16_t` parameter conversion truncates the address mod 65536. -/
def memLoadByte (s : CpuState) (address : Nat) : Nat :=
  s.mem (address % 65536)

/-- `memory_->load<opcode::Opcode>(address)`: big-endian two-byte read;
the increment of the `uint16_t` address wraps at 65536. -/
def memLoadWord (s : CpuState) (address : Nat) : Nat :=
  (s.mem (address % 65536) <<< 8) ||| s.mem ((address + 1) % 65536)

/-- `memory_->store(address, byte)` as called by the CPU, with the
`uint16_t` parameter truncation. -/
def memStore (s : CpuState) (address byte : Nat) : CpuState :=
  { s with mem := chip8.setAt s.mem (address % 65536) byte }

/-- `CpuImpl::opcodeClearDisplay` (cpu.cpp): clear the GPU frame. -/
def opcodeClearDisplay (s : CpuState) : CpuState :=
  { s with fb := GpuImpl.clearFramebuffer s.fb }

/-- `CpuImpl::opcodeReturn` (cpu.cpp): `if (sp > 0) --sp; pc = stack[sp]`.
Note that the assignment to `pc` is unconditional. -/
def opcodeReturn (s : CpuState) : CpuState :=
  let sp1 := if 0 < s.regs.sp then s.regs.sp - 1 else s.regs.sp
  { s with regs := { s.regs with sp := sp1, pc := s.regs.stack sp1 } }

/-- `CpuImpl::opcodeJump` (cpu.cpp): `pc = op.nnn`. -/
def opcodeJump (s : CpuState) : CpuState :=
  { s with regs := { s.regs with pc := opcode.splitNNN s.opcode } }

/-- `CpuImpl::opcodeCall` (cpu.cpp): `stack[sp++] = pc; pc = op.nnn`.
The push is unconditional; `sp` is `uint8_t` so the increment wraps mod
256.  At `sp = 16` the write `stack[16]` is beyond the 16-entry C++
array (undefined behaviour); the model keeps it visible in the total
`stack` map. -/
def opcodeCall (s : CpuState) : CpuState :=
  { s with regs := { s.regs with
      stack := chip8.setAt s.regs.stack s.regs.sp s.regs.pc,
      sp := (s.regs.sp + 1) % 256,
      pc := opcode.splitNNN s.opcode } }

/-- `CpuImpl::opcodeSkipNextIfEquals` (cpu.cpp). -/
def opcodeSkipNextIfEquals (s : CpuState) : CpuState :=
  let op := opcode.splitXKK s.opcode
  if s.regs.vx op.1 = op.2 then
    { s with regs := { s.regs with pc := (s.regs.pc + 2) % 65536 } }
  else s

/-- `CpuImpl::opcodeSkipNextIfNotEquals` (cpu.cpp). -/
def opcodeSkipNextIfNotEquals (s : CpuState) : CpuState :=
  let op := opcode.splitXKK s.opcode
  if s.regs.vx op.1 ≠ op.2 then
    { s with regs := { s.regs with pc := (s.regs.pc + 2) % 65536 } }
  else s

/-- `CpuImpl::opcodeSkipNextIfEqualsRegister` (cpu.cpp). -/
def opcodeSkipNextIfEqualsRegister (s : CpuState) : CpuState :=
  let op := opcode.splitXY s.opcode
  if s.regs.vx op.1 = s.regs.vx op.2 then
    { s with regs := { s.regs with pc := (s.regs.pc + 2) % 65536 } }
  else s

/-- `CpuImpl::opcodeLoadNumber` (cpu.cpp): `vx[op.x] = op.kk`. -/
def opcodeLoadNumber (s : CpuState) : CpuState :=
  let op := opcode.splitXKK s.opcode
  { s with regs := { s.regs with vx := chip8.setAt s.regs.vx op.1 op.2 } }

/-- `CpuImpl::opcodeAddNumber` (cpu.cpp): `vx[op.x] += op.kk`, `uint8_t`
wrap. -/
def opcodeAddNumber (s : CpuState) : CpuState :=
  let op := opcode.splitXKK s.opcode
  { s with regs := { s.regs with
      vx := chip8.setAt s.regs.vx op.1 ((s.regs.vx op.1 + op.2) % 256) } }

/-- `CpuImpl::opcodeLoadRegister` (cpu.cpp): `vx[op.x] = vx[op.y]`. -/
def opcodeLoadRegister (s : CpuState) : CpuState :=
  let op := opcode.splitXY s.opcode
  { s with regs := { s.regs with vx := chip8.setAt s.regs.vx op.1 (s.regs.vx op.2) } }

/-- `CpuImpl::opcodeOrRegister` (cpu.cpp). -/
def opcodeOrRegister (s : CpuState) : CpuState :=
  let op := opcode.splitXY s.opcode
  { s with regs := { s.regs with
      vx := chip8.setAt s.regs.vx op.1 (s.regs.vx op.1 ||| s.regs.vx op.2) } }

/-- `CpuImpl::opcodeAndRegister` (cpu.cpp). -/
def opcodeAndRegister (s : CpuState) : CpuState :=
  let op := opcode.splitXY s.opcode
  { s with regs := { s.regs with
      vx := chip8.setAt s.regs.vx op.1 (s.regs.vx op.1 &&& s.regs.vx op.2) } }

/-- `CpuImpl::opcodeXorRegister` (cpu.cpp). -/
def opcodeXorRegister (s : CpuState) : CpuState :=
  let op := opcode.splitXY s.opcode
  { s with regs := { s.regs with
      vx := chip8.setAt s.regs.vx op.1 (Nat.xor (s.regs.vx op.1) (s.regs.vx op.2)) } }

/-- `CpuImpl::opcodeAddRegister` (cpu.cpp): `uint16_t sum = vx[op.x] +
vx[op.y]; vx[0xF] = ((sum & 0xFF00) != 0); vx[op.x] = (sum & 0xFF)`.
The flag is written first and then, when `op.x = 0xF`, overwritten by
the second assignment. -/
def opcodeAddRegister (s : CpuState) : CpuState :=
  let op := opcode.splitXY s.opcode
  let sum := (s.regs.vx op.1 + s.regs.vx op.2) % 65536
  let vx1 := chip8.setAt s.regs.vx 15 (if sum &&& 0xFF00 ≠ 0 then 1 else 0)
  let vx2 := chip8.setAt vx1 op.1 (sum &&& 0xFF)
  { s with regs := { s.regs with vx := vx2 } }

/-- `CpuImpl::opcodeSubRegister` (cpu.cpp): `uint16_t difference =
vx[op.x] - vx[op.y]; vx[0xF] = (vx[op.x] > vx[op.y]); vx[op.x] =
difference & 0xFF`. -/
def opcodeSubRegister (s : CpuState) : CpuState :=
  let op := opcode.splitXY s.opcode
  let difference := chip8.u16sub (s.regs.vx op.1) (s.regs.vx op.2)
  let vx1 := chip8.setAt s.regs.vx 15 (if s.regs.vx op.2 < s.regs.vx op.1 then 1 else 0)
  let vx2 := chip8.setAt vx1 op.1 (difference &&& 0xFF)
  { s with regs := { s.regs with vx := vx2 } }

/-- `CpuImpl::opcodeShrRegister` (cpu.cpp): `vx[0xF] = vx[op.y] & 0x1;
vx[op.x] = vx[op.y] >> 1`.  The second read of `vx[op.y]` happens after
the flag write. -/
def opcodeShrRegister (s : CpuState) : CpuState :=
  let op := opcode.splitXY s.opcode
  let vx1 := chip8.setAt s.regs.vx 15 (s.regs.vx op.2 &&& 1)
  let vx2 := chip8.setAt vx1 op.1 (vx1 op.2 >>> 1)
  { s with regs := { s.regs with vx := vx2 } }

/-- `CpuImpl::opcodeSubnRegister` (cpu.cpp). -/
def opcodeSubnRegister (s : CpuState) : CpuState :=
  let op := opcode.splitXY s.opcode
  let difference := chip8.u16sub (s.regs.vx op.2) (s.regs.vx op.1)
  let vx1 := chip8.setAt s.regs.vx 15 (if s.regs.vx op.1 < s.regs.vx op.2 then 1 else 0)
  let vx2 := chip8.setAt vx1 op.1 (difference &&& 0xFF)
  { s with regs := { s.regs with vx := vx2 } }

/-- `CpuImpl::opcodeShlRegister` (cpu.cpp): `vx[0xF] = vx[op.y] & 0x80;
vx[op.x] = vx[op.y] << 1`.  The flag receives the raw masked value
(0 or 0x80); the shifted value is truncated by the `uint8_t` store; the
second read of `vx[op.y]` happens after the flag write. -/
def opcodeShlRegister (s : CpuState) : CpuState :=
  let op := opcode.splitXY s.opcode
  let vx1 := chip8.setAt s.regs.vx 15 (s.regs.vx op.2 &&& 0x80)
  let vx2 := chip8.setAt vx1 op.1 ((vx1 op.2 * 2) % 256)
  { s with regs := { s.regs with vx := vx2 } }

/-- `CpuImpl::opcodeSkipNextIfNotEqualsRegister` (cpu.cpp). -/
def opcodeSkipNextIfNotEqualsRegister (s : CpuState) : CpuState :=
  let op := opcode.splitXY s.opcode
  if s.regs.vx op.1 ≠ s.regs.vx op.2 then
    { s with regs := { s.regs with pc := (s.regs.pc + 2) % 65536 } }
  else s

/-- `CpuImpl::opcodeLoadIRegister` (cpu.cpp): `i = op.nnn`. -/
def opcodeLoadIRegister (s : CpuState) : CpuState :=
  { s with regs := { s.regs with i := opcode.splitNNN s.opcode } }

/-- `CpuImpl::opcodeJumpOffset` (cpu.cpp): `pc = op.nnn + vx[0]`,
truncated to `uint16_t`. -/
def opcodeJumpOffset (s : CpuState) : CpuState :=
  { s with regs := { s.regs with
      pc := (opcode.splitNNN s.opcode + s.regs.vx 0) % 65536 } }

/-- `CpuImpl::opcodeRandomNumber` (cpu.cpp): `vx[op.x] = number & op.kk`
where `number` is the next byte of the random stream. -/
def opcodeRandomNumber (s : CpuState) : CpuState :=
  let op := opcode.splitXKK s.opcode
  let number := s.rng s.rngIdx % 256
  { s with
    regs := { s.regs with vx := chip8.setAt s.regs.vx op.1 (number &&& op.2) },
    rngIdx := s.rngIdx + 1 }

/-- `CpuImpl::opcodeDraw` (cpu.cpp): load `op.n` sprite bytes from
memory at `i`, blit them at `(vx[op.x], vx[op.y])`, and set `vx[0xF] = 1`
if `drawSprite` reported an erased pixel.  Nothing is written to
`vx[0xF]` otherwise. -/
def opcodeDraw (s : CpuState) : CpuState :=
  let op := opcode.splitXYN s.opcode
  let sprite := (List.range op.2.2).map (fun offset => memLoadByte s (s.regs.i + offset))
  let result := GpuImpl.drawSprite (s.regs.vx op.1) (s.regs.vx op.2.1) sprite s.fb
  let s1 := { s with fb := result.1 }
  if result.2 then
    { s1 with regs := { s1.regs with vx := chip8.setAt s1.regs.vx 15 1 } }
  else s1

/-- `CpuImpl::opcodeSkipNextIfKeyEqualsRegister` (cpu.cpp). -/
def opcodeSkipNextIfKeyEqualsRegister (s : CpuState) : CpuState :=
  let op := opcode.splitX s.opcode
  if s.keys (s.regs.vx op) then
    { s with regs := { s.regs with pc := (s.regs.pc + 2) % 65536 } }
  else s

/-- `CpuImpl::opcodeSkipNextIfKeyNotEqualsRegister` (cpu.cpp). -/
def opcodeSkipNextIfKeyNotEqualsRegister (s : CpuState) : CpuState :=
  let op := opcode.splitX s.opcode
  if s.keys (s.regs.vx op) then s
  else { s with regs := { s.regs with pc := (s.regs.pc + 2) % 65536 } }

/-- `CpuImpl::opcodeLoadDelayTimerFromRegister` (cpu.cpp): `dt = vx[op.x]`. -/
def opcodeLoadDelayTimerFromRegister (s : CpuState) : CpuState :=
  let op := opcode.splitX s.opcode
  { s with regs := { s.regs with dt := s.regs.vx op } }

/-- `CpuImpl::opcodeLoadRegisterFromDelayTimer` (cpu.cpp): `vx[op.x] = dt`. -/
def opcodeLoadRegisterFromDelayTimer (s : CpuState) : CpuState :=
  let op := opcode.splitX s.opcode
  { s with regs := { s.regs with vx := chip8.setAt s.regs.vx op s.regs.dt } }

/-- `CpuImpl::opcodeLoadSoundTimerFromRegister` (cpu.cpp): `st = vx[op.x]`. -/
def opcodeLoadSoundTimerFromRegister (s : CpuState) : CpuState :=
  let op := opcode.splitX s.opcode
  { s with regs := { s.regs with st := s.regs.vx op } }

/-- `CpuImpl::opcodeAddIRegister` (cpu.cpp): `i += vx[op.x]`, `uint16_t`
wrap. -/
def opcodeAddIRegister (s : CpuState) : CpuState :=
  let op := opcode.splitX s.opcode
  { s with regs := { s.regs with i := (s.regs.i + s.regs.vx op) % 65536 } }

/-- `CpuImpl::opcodeLoadIRegisterWithAddress` (cpu.cpp): `i = font * 5`
where `font = vx[op.x]`. -/
def opcodeLoadIRegisterWithAddress (s : CpuState) : CpuState :=
  let op := opcode.splitX s.opcode
  { s with regs := { s.regs with i := (s.regs.vx op * 5) % 65536 } }

/-- `CpuImpl::opcodeStoreBinaryCodedDecimal` (cpu.cpp): store the three
decimal digits of `vx[op.x]` at `i + 2`, `i + 1`, `i` (ones, tens,
hundreds respectively, written in that loop order). -/
def opcodeStoreBinaryCodedDecimal (s : CpuState) : CpuState :=
  let op := opcode.splitX s.opcode
  let address := s.regs.i
  let data := s.regs.vx op
  let s1 := memStore s (address + 2) (data % 10)
  let s2 := memStore s1 (address + 1) (data / 10 % 10)
  memStore s2 address (data / 10 / 10 % 10)

/-- The loop of `CpuImpl::opcodeStoreRegistersWithAddress` (cpu.cpp):
`count` iterations of `memory_->store(i++, vx[index])` starting at
register `index`. -/
def storeRegsGo (s : CpuState) (count index : Nat) : CpuState :=
  match count with
  | 0 => s
  | Nat.succ c =>
    let s1 := memStore s s.regs.i (s.regs.vx index)
    let s2 := { s1 with regs := { s1.regs with i := (s1.regs.i + 1) % 65536 } }
    storeRegsGo s2 c (index + 1)

/-- `CpuImpl::opcodeStoreRegistersWithAddress` (cpu.cpp): for index in
0..=op.x, `memory_->store(i++, vx[index])`. -/
def opcodeStoreRegistersWithAddress (s : CpuState) : CpuState :=
  storeRegsGo s (opcode.splitX s.opcode + 1) 0

/-- The loop of `CpuImpl::opcodeLoadRegistersWithAddress` (cpu.cpp):
`count` iterations of `vx[index] = memory_->load<uint8_t>(i++)`. -/
def loadRegsGo (s : CpuState) (count index : Nat) : CpuState :=
  match count with
  | 0 => s
  | Nat.succ c =>
    let s1 := { s with regs := { s.regs with
        vx := chip8.setAt s.regs.vx index (memLoadByte s s.regs.i),
        i := (s.regs.i + 1) % 65536 } }
    loadRegsGo s1 c (index + 1)

/-- `CpuImpl::opcodeLoadRegistersWithAddress` (cpu.cpp): for index in
0..=op.x, `vx[index] = memory_->load<uint8_t>(i++)`. -/
def opcodeLoadRegistersWithAddress (s : CpuState) : CpuState :=
  loadRegsGo s (opcode.splitX s.opcode + 1) 0

/-- `CpuImpl::OpcodeDecoder::decode` together with
`INSTRUCTION_TABLE` (cpu.cpp): canonicalise the current opcode with
`opcode::decodeInstruction` and dispatch to the handler registered for
the resulting key.  A key with no table entry (notably `0xF00A`, the
FX0A key, which has no entry) leaves the state unchanged.  The branches
appear in the order of the C++ initialiser list. -/
def executeInstruction (s : CpuState) : CpuState :=
  let key := opcode.decodeInstruction s.opcode
  if key = 0x00E0 then opcodeClearDisplay s
  else if key = 0x00EE then opcodeReturn s
  else if key = 0x1000 then opcodeJump s
  else if key = 0x2000 then opcodeCall s
  else if key = 0x3000 then opcodeSkipNextIfEquals s
  else if key = 0x4000 then opcodeSkipNextIfNotEquals s
  else if key = 0x5000 then opcodeSkipNextIfEqualsRegister s
  else if key = 0x6000 then opcodeLoadNumber s
  else if key = 0x7000 then opcodeAddNumber s
  else if key = 0x8000 then opcodeLoadRegister s
  else if key = 0x8001 then opcodeOrRegister s
  else if key = 0x8002 then opcodeAndRegister s
  else if key = 0x8003 then opcodeXorRegister s
  else if key = 0x8004 then opcodeAddRegister s
  else if key = 0x8005 then opcodeSubRegister s
  else if key = 0x8006 then opcodeShrRegister s
  else if key = 0x8007 then opcodeSubnRegister s
  else if key = 0x800E then opcodeShlRegister s
  else if key = 0x9000 then opcodeSkipNextIfNotEqualsRegister s
  else if key = 0xA000 then opcodeLoadIRegister s
  else if key = 0xB000 then opcodeJumpOffset s
  else if key = 0xC000 then opcodeRandomNumber s
  else if key = 0xD000 then opcodeDraw s
  else if key = 0xE09E then opcodeSkipNextIfKeyEqualsRegister s
  else if key = 0xE0A1 then opcodeSkipNextIfKeyNotEqualsRegister s
  else if key = 0xF007 then opcodeLoadRegisterFromDelayTimer s
  else if key = 0xF015 then opcodeLoadDelayTimerFromRegister s
  else if key = 0xF018 then opcodeLoadSoundTimerFromRegister s
  else if key = 0xF01E then opcodeAddIRegister s
  else if key = 0xF029 then opcodeLoadIRegisterWithAddress s
  else if key = 0xF033 then opcodeStoreBinaryCodedDecimal s
  else if key = 0xF055 then opcodeStoreRegistersWithAddress s
  else if key = 0xF065 then opcodeLoadRegistersWithAddress s
  else s

/-- `CpuImpl::updateTimer` (cpu.cpp): decrement each nonzero timer when
at least one tick duration has elapsed since its anchor (`uint32_t`
subtraction).  The anchors `delayTimerTick_` and `soundTimerTick_` are
never advanced anywhere in the source: they keep their constructor value
for the lifetime of the CPU. -/
def updateTimer (s : CpuState) : CpuState :=
  let delayTimerElapsed := chip8.u32sub s.tick s.delayTimerTick
  let dt1 := if DELAY_TIMER_TICK_DURATION ≤ delayTimerElapsed ∧ 0 < s.regs.dt then
      s.regs.dt - 1 else s.regs.dt
  let soundTimerElapsed := chip8.u32sub s.tick s.soundTimerTick
  let st1 := if SOUND_TIMER_TICK_DURATION ≤ soundTimerElapsed ∧ 0 < s.regs.st then
      s.regs.st - 1 else s.regs.st
  { s with regs := { s.regs with dt := dt1, st := st1 } }

/-- `CpuImpl::tick(uint32_t)` (cpu.hpp): record the host millisecond
timestamp. -/
def tick (s : CpuState) (t : Nat) : CpuState :=
  { s with tick := t % chip8.UINT32_MOD }

/-- `CpuImpl::update` (cpu.cpp): fetch the big-endian opcode at `pc`,
advance `pc` by 2 (`uint16_t` wrap), dispatch the instruction, then
update the timers. -/
def update (s : CpuState) : CpuState :=
  let fetched := memLoadWord s s.regs.pc
  let s1 := { s with
    opcode := fetched,
    regs := { s.regs with pc := (s.regs.pc + 2) % 65536 } }
  updateTimer (executeInstruction s1)

end CpuImpl

/-- A concrete CPU state whose program is `F3 0A 6A AB` at 0x200 (FX0A
targeting V3, then LD VA,0xAB), with no key pressed and host tick 0. -/
def fx0aProgramState : CpuState :=
  ⟨⟨0x200, fun _ => 0, 0, fun _ => 0, 0, 0, 0⟩,
    (fun a => if a = 0x200 then 0xF3 else if a = 0x201 then 0x0A
      else if a = 0x202 then 0x6A else if a = 0x203 then 0xAB else 0),
    fun _ => 0, fun _ => false, 0, 0, 0, 0, fun _ => 0, 0⟩

/-- A concrete CPU state with opcode 0xF30A already latched, used to
exercise the instruction dispatch directly. -/
def fx0aOpcodeState : CpuState :=
  ⟨⟨0x202, fun _ => 0, 0, fun _ => 0, 0, 0, 0⟩, fun _ => 0, fun _ => 0,
    fun _ => false, 0xF30A, 0, 0, 0, fun _ => 0, 0⟩

/-- A concrete CPU state about to fetch an ANNN opcode (the memory is
constant 0xA1, so the fetch yields 0xA1A1), with DT = 7, ST = 3 and host
tick 5 — less than one 60 Hz period past the (zero) timer anchors. -/
def annnSampleState : CpuState :=
  ⟨⟨0x200, fun _ => 0, 0, fun _ => 0, 0, 7, 3⟩, fun _ => 0xA1, fun _ => 0,
    fun _ => false, 0, 5, 0, 0, fun _ => 0, 0⟩

/-- A concrete CPU state about to fetch an ANNN opcode with ST = 1 and
host tick 16: one full (integer) 60 Hz period past the zero anchors. -/
def annnSoundState : CpuState :=
  ⟨⟨0x200, fun _ => 0, 0, fun _ => 0, 0, 0, 1⟩, fun _ => 0xA1, fun _ => 0,
    fun _ => false, 0, 16, 0, 0, fun _ => 0, 0⟩

/-- A concrete CPU state for DXYN with an all-dark framebuffer: opcode
0xD011 draws the one-byte sprite 0x80 (memory is constant 0x80) at
(V0, V1) = (0, 0). -/
def drawNoLitState : CpuState :=
  ⟨⟨0x202, fun _ => 0, 0, fun _ => 0, 0x300, 0, 0⟩, fun _ => 0x80, fun _ => 0,
    fun _ => false, 0xD011, 0, 0, 0, fun _ => 0, 0⟩

/-- A concrete CPU state for DXYN in which the blit erases the lit pixel
at framebuffer address 1: opcode 0xD011 draws the one-byte sprite 0x40
(memory is constant 0x40) at (0, 0) over a framebuffer whose byte 1 is
0xFF. -/
def drawEraseState : CpuState :=
  ⟨⟨0x202, fun _ => 0, 0, fun _ => 0, 0x300, 0, 0⟩, fun _ => 0x40,
    chip8.setAt (fun _ => 0) 1 255, fun _ => false, 0xD011, 0, 0, 0, fun _ => 0, 0⟩

end chip8

namespace chip8

theorem setAt_same (f : Nat → Nat) (a v : Nat) : setAt f a v a = v := by
  simp [setAt]

theorem setAt_other (f : Nat → Nat) (a v b : Nat) (h : b ≠ a) :
    setAt f a v b = f b := by
  simp [setAt, h]

namespace opcode

theorem and_15_eq_mod (x : Nat) : x &&& 15 = x % 16 := by
  have h := Nat.and_pow_two_sub_one_eq_mod x 4
  norm_num at h
  exact h

theorem and_255_eq_mod (x : Nat) : x &&& 255 = x % 256 := by
  have h := Nat.and_pow_two_sub_one_eq_mod x 8
  norm_num at h
  exact h

theorem and_4095_eq_mod (x : Nat) : x &&& 4095 = x % 4096 := by
  have h := Nat.and_pow_two_sub_one_eq_mod x 12
  norm_num at h
  exact h

theorem joinX_eq (x : Nat) (hx : x < 16) : joinX x = 256 * x := by
  unfold joinX
  rw [and_15_eq_mod, Nat.mod_eq_of_lt hx, Nat.shiftLeft_eq]
  ring

theorem joinXKK_eq (x kk : Nat) (hx : x < 16) (hkk : kk < 256) :
    joinXKK x kk = 256 * x + kk := by
  unfold joinXKK
  rw [joinX_eq x hx, and_255_eq_mod, Nat.mod_eq_of_lt hkk]
  have h256 : (256 : Nat) * x = 2 ^ 8 * x := by norm_num
  rw [h256, ← Nat.mul_add_lt_is_or (show kk < 2 ^ 8 by omega)]

theorem joinXY_eq (x y : Nat) (hx : x < 16) (hy : y < 16) :
    joinXY x y = 256 * x + 16 * y := by
  unfold joinXY
  rw [joinX_eq x hx, and_15_eq_mod, Nat.mod_eq_of_lt hy, Nat.shiftLeft_eq]
  have h256 : (256 : Nat) * x = 2 ^ 8 * x := by norm_num
  have h16 : y * 2 ^ 4 = 16 * y := by ring
  rw [h256, h16, ← Nat.mul_add_lt_is_or (show 16 * y < 2 ^ 8 by omega)]

theorem joinXYN_eq (x y n : Nat) (hx : x < 16) (hy : y < 16) (hn : n < 16) :
    joinXYN x y n = 256 * x + 16 * y + n := by
  unfold joinXYN
  rw [joinXY_eq x y hx hy, and_15_eq_mod, Nat.mod_eq_of_lt hn]
  have hsplit : (256 : Nat) * x + 16 * y = 2 ^ 4 * (16 * x + y) := by ring
  rw [hsplit, ← Nat.mul_add_lt_is_or (show n < 2 ^ 4 by omega)]

theorem splitX_joinX (x : Nat) (hx : x < 16) : splitX (joinX x) = x := by
  rw [joinX_eq x hx]
  unfold splitX
  rw [Nat.shiftRight_eq_div_pow, and_15_eq_mod]
  omega

theorem splitXKK_joinXKK (x kk : Nat) (hx : x < 16) (hkk : kk < 256) :
    splitXKK (joinXKK x kk) = (x, kk) := by
  rw [joinXKK_eq x kk hx hkk]
  unfold splitXKK
  rw [Nat.shiftRight_eq_div_pow, and_15_eq_mod, and_255_eq_mod, Prod.mk.injEq]
  constructor
  · omega
  · omega

theorem splitXY_joinXY (x y : Nat) (hx : x < 16) (hy : y < 16) :
    splitXY (joinXY x y) = (x, y) := by
  rw [joinXY_eq x y hx hy]
  unfold splitXY
  rw [Nat.shiftRight_eq_div_pow, Nat.shiftRight_eq_div_pow, and_15_eq_mod, and_15_eq_mod,
    Prod.mk.injEq]
  constructor
  · omega
  · omega

theorem splitXYN_joinXYN (x y n : Nat) (hx : x < 16) (hy : y < 16) (hn : n < 16) :
    splitXYN (joinXYN x y n) = (x, y, n) := by
  rw [joinXYN_eq x y n hx hy hn]
  unfold splitXYN
  rw [Nat.shiftRight_eq_div_pow, Nat.shiftRight_eq_div_pow, and_15_eq_mod, and_15_eq_mod,
    and_15_eq_mod, Prod.mk.injEq, Prod.mk.injEq]
  refine ⟨by omega, by omega, by omega⟩

theorem splitNNN_joinNNN (nnn : Nat) (hnnn : nnn < 4096) :
    splitNNN (joinNNN nnn) = nnn := by
  unfold splitNNN joinNNN
  rw [and_4095_eq_mod, and_4095_eq_mod]
  omega

end opcode

end chip8

namespace chip8

namespace Memory

theorem store_lt {m : Memory} {a : Nat} (h : a < m.size) (b : Nat) :
    m.store a b = some ⟨m.size, chip8.setAt m.data a b⟩ := by
  simp [store, h]

/-- Behaviour of the word-buffer store loop when every touched address is
inside the vector: it succeeds, leaves addresses below the write window
unchanged, and writes `lowerByteOf`/`upperByteOf` of the j-th word at the
j-th address pair. -/
theorem storeWordsFrom_spec (endian : Endian) (startAddress : Nat) :
    ∀ (buffer : List Nat) (index : Nat) (m : Memory),
      startAddress + 2 * (index + buffer.length) ≤ m.size → m.size ≤ 65536 →
      ∃ m', m.storeWordsFrom startAddress endian buffer index = some m' ∧
        m'.size = m.size ∧
        (∀ a, a < startAddress + 2 * index → m'.data a = m.data a) ∧
        ∀ j (hj : j < buffer.length),
          m'.data (startAddress + 2 * (index + j)) =
            lowerByteOf endian (buffer.get ⟨j, hj⟩) ∧
          m'.data (startAddress + 2 * (index + j) + 1) =
            upperByteOf endian (buffer.get ⟨j, hj⟩) := by
  intro buffer
  induction buffer with
  | nil =>
    intro index m h1 h2
    exact ⟨m, rfl, rfl, fun a _ => rfl, fun j hj => absurd hj (by simp)⟩
  | cons w rest ih =>
    intro index m h1 h2
    have hlen : (w :: rest).length = rest.length + 1 := rfl
    rw [hlen] at h1
    have haddr : startAddress + 2 * index < 65536 := by omega
    have haddrm : (startAddress + 2 * index) % 65536 = startAddress + 2 * index :=
      Nat.mod_eq_of_lt haddr
    have hlt1 : startAddress + 2 * index < m.size := by omega
    have hlt2 : startAddress + 2 * index + 1 < m.size := by omega
    obtain ⟨m', hm', hsize, hframe, hwords⟩ :=
      ih (index + 1)
        ⟨m.size, chip8.setAt (chip8.setAt m.data (startAddress + 2 * index)
          (lowerByteOf endian w)) (startAddress + 2 * index + 1) (upperByteOf endian w)⟩
        (show startAddress + 2 * (index + 1 + rest.length) ≤ m.size by omega) h2
    have hsize2 : m'.size = m.size := hsize
    have hstep : m.storeWordsFrom startAddress endian (w :: rest) index = some m' := by
      rw [← hm']
      simp only [storeWordsFrom]
      rw [haddrm, store_lt hlt1]
      rw [Option.some_bind]
      rw [store_lt (show startAddress + 2 * index + 1 <
        (Memory.mk m.size (chip8.setAt m.data (startAddress + 2 * index)
          (lowerByteOf endian w))).size from hlt2)]
      rw [Option.some_bind]
    refine ⟨m', hstep, hsize2, ?_, ?_⟩
    · intro a ha
      rw [hframe a (by omega)]
      show chip8.setAt (chip8.setAt m.data (startAddress + 2 * index)
        (lowerByteOf endian w)) (startAddress + 2 * index + 1) (upperByteOf endian w) a
        = m.data a
      rw [chip8.setAt_other _ _ _ _ (show a ≠ startAddress + 2 * index + 1 by omega),
        chip8.setAt_other _ _ _ _ (show a ≠ startAddress + 2 * index by omega)]
    · intro j hj
      match j with
      | 0 =>
        constructor
        · rw [show startAddress + 2 * (index + 0) = startAddress + 2 * index by ring]
          rw [hframe (startAddress + 2 * index) (by omega)]
          show chip8.setAt (chip8.setAt m.data (startAddress + 2 * index)
            (lowerByteOf endian w)) (startAddress + 2 * index + 1) (upperByteOf endian w)
            (startAddress + 2 * index) = _
          rw [chip8.setAt_other _ _ _ _
            (show startAddress + 2 * index ≠ startAddress + 2 * index + 1 by omega),
            chip8.setAt_same]
          rfl
        · rw [show startAddress + 2 * (index + 0) + 1 = startAddress + 2 * index + 1 by ring]
          rw [hframe (startAddress + 2 * index + 1) (by omega)]
          show chip8.setAt (chip8.setAt m.data (startAddress + 2 * index)
            (lowerByteOf endian w)) (startAddress + 2 * index + 1) (upperByteOf endian w)
            (startAddress + 2 * index + 1) = _
          rw [chip8.setAt_same]
          rfl
      | Nat.succ j' =>
        have hj' : j' < rest.length := by
          rw [hlen] at hj
          omega
        have heq1 : startAddress + 2 * (index + (j' + 1)) =
            startAddress + 2 * (index + 1 + j') := by ring
        have heq2 : (w :: rest).get ⟨j' + 1, hj⟩ = rest.get ⟨j', hj'⟩ := rfl
        rw [heq1, heq2]
        exact hwords j' hj'

end Memory

end chip8

/-- C2 counterexample: on the 4096-byte system memory, `Memory::store`
at address 0x1000 does not write cell `0x1000 & 0xFFF = 0`: it indexes
the vector out of bounds (modelled as `none`), while the spec-mandated
masked store would write cell 0.  So accesses are neither masked nor
total. -/
theorem claim_C2_counterexample :
    chip8.Memory.store ⟨4096, fun _ => 0⟩ 4096 171 = none ∧
    (chip8.maskedStoreSpec ⟨4096, fun _ => 0⟩ 4096 171).data 0 = 171 := by
  constructor
  · rfl
  · rfl

/-- C2 amended: `Memory::store(a, b)` and `Memory::load(a)` access cell
`a` directly with no `& 0xFFF` masking.  They are in bounds exactly for
`a < size` (4096 for the system memory); for `a ≥ size` the access is
out of bounds (undefined behaviour), not a wrap. -/
theorem claim_C2_amended_unmasked_access (m : chip8.Memory) (a b : Nat) (h : a < m.size) :
    (∃ m', m.store a b = some m' ∧ m'.size = m.size ∧ m'.data a = b ∧
      ∀ c, c ≠ a → m'.data c = m.data c) ∧
    m.loadByte a = some (m.data a) ∧
    ∀ a', m.size ≤ a' → m.store a' b = none ∧ m.loadByte a' = none := by
  refine ⟨⟨⟨m.size, chip8.setAt m.data a b⟩, chip8.Memory.store_lt h b, rfl,
    chip8.setAt_same _ _ _, fun c hc => chip8.setAt_other _ _ _ _ hc⟩, ?_, ?_⟩
  · simp [chip8.Memory.loadByte, h]
  · intro a' ha'
    constructor
    · simp [chip8.Memory.store, Nat.not_lt_of_le ha']
    · simp [chip8.Memory.loadByte, Nat.not_lt_of_le ha']

/-- C2 witness: the amended theorem applied to the 4096-byte memory at
address 18, byte 7. -/
theorem claim_C2_amended_unmasked_access_witness :
    (18 : Nat) < (4096 : Nat) ∧
    ((∃ m', chip8.Memory.store ⟨4096, fun _ => 0⟩ 18 7 = some m' ∧
        m'.size = 4096 ∧ m'.data 18 = 7 ∧
        ∀ c, c ≠ 18 → m'.data c = (0 : Nat)) ∧
      chip8.Memory.loadByte ⟨4096, fun _ => 0⟩ 18 = some 0 ∧
      ∀ a', 4096 ≤ a' → chip8.Memory.store ⟨4096, fun _ => 0⟩ a' 7 = none ∧
        chip8.Memory.loadByte ⟨4096, fun _ => 0⟩ a' = none) :=
  ⟨by norm_num, claim_C2_amended_unmasked_access ⟨4096, fun _ => 0⟩ 18 7 (by norm_num)⟩

/-- C7 counterexample: storing the single word 0xABCD with the "big"
endian selector places the LOW byte 0xCD at the lower address 0x200 and
the high byte 0xAB at 0x201 — the opposite of the claim, which says
"big" places the high byte `w >> 8` at the lower address. -/
theorem claim_C7_counterexample :
    ∃ m', chip8.Memory.storeBufferWords ⟨4096, fun _ => 0⟩ 512 [43981]
        chip8.Endian.BIG = some m' ∧
      m'.data 512 = 205 ∧ m'.data 513 = 171 ∧
      (43981 >>> 8) &&& 255 = 171 ∧ 43981 &&& 255 = 205 := by
  refine ⟨⟨4096, chip8.setAt (chip8.setAt (fun _ => 0) 512 205) 513 171⟩, ?_, ?_, ?_, ?_, ?_⟩
  · rfl
  · rfl
  · rfl
  · rfl
  · rfl

/-- C7 amended: the endian labels select the OPPOSITE placement of what
the claim says: `Endian::LITTLE` places each word's high byte
`(w >> 8) & 0xFF` at the lower address and the low byte at the higher
address, while `Endian::BIG` places the low byte `w & 0xFF` at the lower
address.  (Hence test programs stored with "little" read back correctly
through the big-endian `load<uint16_t>`.) -/
theorem claim_C7_amended_endian_swapped (m : chip8.Memory) (startAddress : Nat)
    (buffer : List Nat) (endian : chip8.Endian) (j : Nat)
    (h1 : startAddress + 2 * buffer.length ≤ m.size) (h2 : m.size ≤ 65536)
    (hj : j < buffer.length) :
    ∃ m', m.storeBufferWords startAddress buffer endian = some m' ∧
      m'.data (startAddress + 2 * j) =
        chip8.Memory.lowerByteOf endian (buffer.get ⟨j, hj⟩) ∧
      m'.data (startAddress + 2 * j + 1) =
        chip8.Memory.upperByteOf endian (buffer.get ⟨j, hj⟩) ∧
      chip8.Memory.lowerByteOf chip8.Endian.LITTLE (buffer.get ⟨j, hj⟩) =
        (buffer.get ⟨j, hj⟩ >>> 8) &&& 255 ∧
      chip8.Memory.lowerByteOf chip8.Endian.BIG (buffer.get ⟨j, hj⟩) =
        buffer.get ⟨j, hj⟩ &&& 255 := by
  obtain ⟨m', hm', _, _, hwords⟩ :=
    chip8.Memory.storeWordsFrom_spec endian startAddress buffer 0 m (by omega) h2
  obtain ⟨hlow, hhigh⟩ := hwords j hj
  rw [show 0 + j = j by omega] at hlow hhigh
  exact ⟨m', hm', hlow, hhigh, rfl, rfl⟩

/-- C7 witness: the amended theorem applied to the 4096-byte memory at
start address 0x200 with the buffer [0xABCD, 0x1234], endian "little",
word index 1. -/
theorem claim_C7_amended_endian_swapped_witness :
    (512 + 2 * (2 : Nat) ≤ 4096 ∧ (4096 : Nat) ≤ 65536 ∧ (1 : Nat) < 2) ∧
    ∃ m', chip8.Memory.storeBufferWords ⟨4096, fun _ => 0⟩ 512 [43981, 4660]
        chip8.Endian.LITTLE = some m' ∧
      m'.data (512 + 2 * 1) =
        chip8.Memory.lowerByteOf chip8.Endian.LITTLE ([43981, 4660].get ⟨1, by norm_num⟩) ∧
      m'.data (512 + 2 * 1 + 1) =
        chip8.Memory.upperByteOf chip8.Endian.LITTLE ([43981, 4660].get ⟨1, by norm_num⟩) ∧
      chip8.Memory.lowerByteOf chip8.Endian.LITTLE ([43981, 4660].get ⟨1, by norm_num⟩) =
        ([43981, 4660].get ⟨1, by norm_num⟩ >>> 8) &&& 255 ∧
      chip8.Memory.lowerByteOf chip8.Endian.BIG ([43981, 4660].get ⟨1, by norm_num⟩) =
        [43981, 4660].get ⟨1, by norm_num⟩ &&& 255 :=
  ⟨⟨by norm_num, by norm_num, by norm_num⟩,
    claim_C7_amended_endian_swapped ⟨4096, fun _ => 0⟩ 512 [43981, 4660]
      chip8.Endian.LITTLE 1 (by norm_num) (by norm_num) (by norm_num)⟩

/-- C9: Operand encoding and decoding are inverse for every shape in
X, XKK, XY, XYN, NNN and every operand tuple whose fields fit their
widths (`decode(S, encode(S, ops)) == ops`). -/
theorem claim_C9_operand_roundtrip (x y n kk nnn : Nat)
    (hx : x < 16) (hy : y < 16) (hn : n < 16) (hkk : kk < 256) (hnnn : nnn < 4096) :
    chip8.opcode.splitX (chip8.opcode.joinX x) = x ∧
    chip8.opcode.splitXKK (chip8.opcode.joinXKK x kk) = (x, kk) ∧
    chip8.opcode.splitXY (chip8.opcode.joinXY x y) = (x, y) ∧
    chip8.opcode.splitXYN (chip8.opcode.joinXYN x y n) = (x, y, n) ∧
    chip8.opcode.splitNNN (chip8.opcode.joinNNN nnn) = nnn :=
  ⟨chip8.opcode.splitX_joinX x hx, chip8.opcode.splitXKK_joinXKK x kk hx hkk,
   chip8.opcode.splitXY_joinXY x y hx hy, chip8.opcode.splitXYN_joinXYN x y n hx hy hn,
   chip8.opcode.splitNNN_joinNNN nnn hnnn⟩

/-- C9 witness: the round-trip theorem applied at x = 3, y = 5, n = 7,
kk = 0xAB, nnn = 0x123. -/
theorem claim_C9_operand_roundtrip_witness :
    chip8.opcode.splitX (chip8.opcode.joinX 3) = 3 ∧
    chip8.opcode.splitXKK (chip8.opcode.joinXKK 3 171) = (3, 171) ∧
    chip8.opcode.splitXY (chip8.opcode.joinXY 3 5) = (3, 5) ∧
    chip8.opcode.splitXYN (chip8.opcode.joinXYN 3 5 7) = (3, 5, 7) ∧
    chip8.opcode.splitNNN (chip8.opcode.joinNNN 291) = 291 :=
  claim_C9_operand_roundtrip 3 5 7 171 291 (by norm_num) (by norm_num) (by norm_num)
    (by norm_num) (by norm_num)

/-- C4 counterexample: RET (00EE) with SP = 0 is not a no-op — it
rewrites PC from 0x202 to stack[0] = 0x300 — and CALL (2NNN) with
SP = 16 does not drop the push: SP becomes 17. -/
theorem claim_C4_counterexample :
    (chip8.CpuImpl.opcodeReturn
      ⟨⟨0x202, fun _ => 0, 0, fun _ => 0x300, 0, 0, 0⟩, fun _ => 0, fun _ => 0,
        fun _ => false, 0x00EE, 0, 0, 0, fun _ => 0, 0⟩).regs.pc = 0x300 ∧
    (⟨⟨0x202, fun _ => 0, 0, fun _ => 0x300, 0, 0, 0⟩, fun _ => 0, fun _ => 0,
        fun _ => false, 0x00EE, 0, 0, 0, fun _ => 0, 0⟩ : chip8.CpuState).regs.pc = 0x202 ∧
    (chip8.CpuImpl.opcodeCall
      ⟨⟨0x202, fun _ => 0, 16, fun _ => 0, 0, 0, 0⟩, fun _ => 0, fun _ => 0,
        fun _ => false, 0x2300, 0, 0, 0, fun _ => 0, 0⟩).regs.sp = 17 ∧
    (⟨⟨0x202, fun _ => 0, 16, fun _ => 0, 0, 0, 0⟩, fun _ => 0, fun _ => 0,
        fun _ => false, 0x2300, 0, 0, 0, fun _ => 0, 0⟩ : chip8.CpuState).regs.sp = 16 := by
  refine ⟨rfl, rfl, rfl, rfl⟩

/-- C4 amended: neither bound is clamped the way the claim says.  RET
with SP = 0 keeps SP at 0 but still rewrites PC to stack[0] (so the
state is not left unchanged), leaving all other components alone; CALL
with SP = 16 performs the push anyway: it writes the saved PC to stack
slot 16 (one past the 16-entry array — undefined behaviour in the C++),
increments SP to 17, and jumps to NNN. -/
theorem claim_C4_amended_no_clamping (s t : chip8.CpuState) :
    (s.regs.sp = 0 →
      (chip8.CpuImpl.opcodeReturn s).regs.sp = 0 ∧
      (chip8.CpuImpl.opcodeReturn s).regs.pc = s.regs.stack 0 ∧
      (chip8.CpuImpl.opcodeReturn s).regs.vx = s.regs.vx ∧
      (chip8.CpuImpl.opcodeReturn s).regs.stack = s.regs.stack ∧
      (chip8.CpuImpl.opcodeReturn s).regs.i = s.regs.i ∧
      (chip8.CpuImpl.opcodeReturn s).mem = s.mem) ∧
    (t.regs.sp = 16 →
      (chip8.CpuImpl.opcodeCall t).regs.sp = 17 ∧
      (chip8.CpuImpl.opcodeCall t).regs.pc = chip8.opcode.splitNNN t.opcode ∧
      (chip8.CpuImpl.opcodeCall t).regs.stack 16 = t.regs.pc ∧
      ∀ k, k ≠ 16 → (chip8.CpuImpl.opcodeCall t).regs.stack k = t.regs.stack k) := by
  constructor
  · intro h
    refine ⟨?_, ?_, rfl, rfl, rfl, rfl⟩
    · simp [chip8.CpuImpl.opcodeReturn, h]
    · simp [chip8.CpuImpl.opcodeReturn, h]
  · intro h
    refine ⟨?_, rfl, ?_, ?_⟩
    · simp [chip8.CpuImpl.opcodeCall, h]
    · show chip8.setAt t.regs.stack t.regs.sp t.regs.pc 16 = t.regs.pc
      rw [h, chip8.setAt_same]
    · intro k hk
      show chip8.setAt t.regs.stack t.regs.sp t.regs.pc k = t.regs.stack k
      rw [h]
      exact chip8.setAt_other _ _ _ _ hk

/-- C4 witness: the amended theorem applied to a state with SP = 0 (for
the RET part) and a state with SP = 16 (for the CALL part). -/
theorem claim_C4_amended_no_clamping_witness :
    ((⟨⟨0x202, fun _ => 0, 0, fun _ => 0x300, 0, 0, 0⟩, fun _ => 0, fun _ => 0,
        fun _ => false, 0x00EE, 0, 0, 0, fun _ => 0, 0⟩ : chip8.CpuState).regs.sp = 0 →
      (chip8.CpuImpl.opcodeReturn
        ⟨⟨0x202, fun _ => 0, 0, fun _ => 0x300, 0, 0, 0⟩, fun _ => 0, fun _ => 0,
          fun _ => false, 0x00EE, 0, 0, 0, fun _ => 0, 0⟩).regs.sp = 0 ∧
      (chip8.CpuImpl.opcodeReturn
        ⟨⟨0x202, fun _ => 0, 0, fun _ => 0x300, 0, 0, 0⟩, fun _ => 0, fun _ => 0,
          fun _ => false, 0x00EE, 0, 0, 0, fun _ => 0, 0⟩).regs.pc =
        (⟨⟨0x202, fun _ => 0, 0, fun _ => 0x300, 0, 0, 0⟩, fun _ => 0, fun _ => 0,
          fun _ => false, 0x00EE, 0, 0, 0, fun _ => 0, 0⟩ : chip8.CpuState).regs.stack 0 ∧
      (chip8.CpuImpl.opcodeReturn
        ⟨⟨0x202, fun _ => 0, 0, fun _ => 0x300, 0, 0, 0⟩, fun _ => 0, fun _ => 0,
          fun _ => false, 0x00EE, 0, 0, 0, fun _ => 0, 0⟩).regs.vx =
        (⟨⟨0x202, fun _ => 0, 0, fun _ => 0x300, 0, 0, 0⟩, fun _ => 0, fun _ => 0,
          fun _ => false, 0x00EE, 0, 0, 0, fun _ => 0, 0⟩ : chip8.CpuState).regs.vx ∧
      (chip8.CpuImpl.opcodeReturn
        ⟨⟨0x202, fun _ => 0, 0, fun _ => 0x300, 0, 0, 0⟩, fun _ => 0, fun _ => 0,
          fun _ => false, 0x00EE, 0, 0, 0, fun _ => 0, 0⟩).regs.stack =
        (⟨⟨0x202, fun _ => 0, 0, fun _ => 0x300, 0, 0, 0⟩, fun _ => 0, fun _ => 0,
          fun _ => false, 0x00EE, 0, 0, 0, fun _ => 0, 0⟩ : chip8.CpuState).regs.stack ∧
      (chip8.CpuImpl.opcodeReturn
        ⟨⟨0x202, fun _ => 0, 0, fun _ => 0x300, 0, 0, 0⟩, fun _ => 0, fun _ => 0,
          fun _ => false, 0x00EE, 0, 0, 0, fun _ => 0, 0⟩).regs.i =
        (⟨⟨0x202, fun _ => 0, 0, fun _ => 0x300, 0, 0, 0⟩, fun _ => 0, fun _ => 0,
          fun _ => false, 0x00EE, 0, 0, 0, fun _ => 0, 0⟩ : chip8.CpuState).regs.i ∧
      (chip8.CpuImpl.opcodeReturn
        ⟨⟨0x202, fun _ => 0, 0, fun _ => 0x300, 0, 0, 0⟩, fun _ => 0, fun _ => 0,
          fun _ => false, 0x00EE, 0, 0, 0, fun _ => 0, 0⟩).mem =
        (⟨⟨0x202, fun _ => 0, 0, fun _ => 0x300, 0, 0, 0⟩, fun _ => 0, fun _ => 0,
          fun _ => false, 0x00EE, 0, 0, 0, fun _ => 0, 0⟩ : chip8.CpuState).mem) ∧
    ((⟨⟨0x202, fun _ => 0, 16, fun _ => 0, 0, 0, 0⟩, fun _ => 0, fun _ => 0,
        fun _ => false, 0x2300, 0, 0, 0, fun _ => 0, 0⟩ : chip8.CpuState).regs.sp = 16 →
      (chip8.CpuImpl.opcodeCall
        ⟨⟨0x202, fun _ => 0, 16, fun _ => 0, 0, 0, 0⟩, fun _ => 0, fun _ => 0,
          fun _ => false, 0x2300, 0, 0, 0, fun _ => 0, 0⟩).regs.sp = 17 ∧
      (chip8.CpuImpl.opcodeCall
        ⟨⟨0x202, fun _ => 0, 16, fun _ => 0, 0, 0, 0⟩, fun _ => 0, fun _ => 0,
          fun _ => false, 0x2300, 0, 0, 0, fun _ => 0, 0⟩).regs.pc =
        chip8.opcode.splitNNN 0x2300 ∧
      (chip8.CpuImpl.opcodeCall
        ⟨⟨0x202, fun _ => 0, 16, fun _ => 0, 0, 0, 0⟩, fun _ => 0, fun _ => 0,
          fun _ => false, 0x2300, 0, 0, 0, fun _ => 0, 0⟩).regs.stack 16 = 0x202 ∧
      ∀ k, k ≠ 16 →
        (chip8.CpuImpl.opcodeCall
          ⟨⟨0x202, fun _ => 0, 16, fun _ => 0, 0, 0, 0⟩, fun _ => 0, fun _ => 0,
            fun _ => false, 0x2300, 0, 0, 0, fun _ => 0, 0⟩).regs.stack k = 0) :=
  claim_C4_amended_no_clamping
    ⟨⟨0x202, fun _ => 0, 0, fun _ => 0x300, 0, 0, 0⟩, fun _ => 0, fun _ => 0,
      fun _ => false, 0x00EE, 0, 0, 0, fun _ => 0, 0⟩
    ⟨⟨0x202, fun _ => 0, 16, fun _ => 0, 0, 0, 0⟩, fun _ => 0, fun _ => 0,
      fun _ => false, 0x2300, 0, 0, 0, fun _ => 0, 0⟩

/-- C6 counterexample: SHL with V[y] = 0x80 stores 0x80 (128) into the
flag register, not the top bit (V[y] >> 7) & 1 = 1 as the claim says. -/
theorem claim_C6_counterexample :
    (chip8.CpuImpl.opcodeShlRegister
      ⟨⟨0x202, fun k => if k = 1 then 0x80 else 0, 0, fun _ => 0, 0, 0, 0⟩,
        fun _ => 0, fun _ => 0, fun _ => false, 0x801E, 0, 0, 0, fun _ => 0, 0⟩).regs.vx 15
      = 128 ∧
    ((0x80 : Nat) >>> 7) &&& 1 = 1 := by
  refine ⟨rfl, rfl⟩

/-- C6 amended: for 8XYE with x ≠ 0xF and y ≠ 0xF, the flag register
receives `V[y] & 0x80` — the raw masked top bit, 0 or 0x80, not 0 or 1 —
while V[x] receives `(V[y] << 1) & 0xFF`; every other register is
untouched.  (When x = 0xF the shifted value overwrites the flag, and
when y = 0xF the shift reads the freshly written flag, so the generic
description applies only away from the flag register.) -/
theorem claim_C6_amended_shl_flag_not_bit (s : chip8.CpuState)
    (hx : (chip8.opcode.splitXY s.opcode).1 ≠ 15)
    (hy : (chip8.opcode.splitXY s.opcode).2 ≠ 15) :
    (chip8.CpuImpl.opcodeShlRegister s).regs.vx 15 =
      s.regs.vx (chip8.opcode.splitXY s.opcode).2 &&& 128 ∧
    (chip8.CpuImpl.opcodeShlRegister s).regs.vx (chip8.opcode.splitXY s.opcode).1 =
      (s.regs.vx (chip8.opcode.splitXY s.opcode).2 * 2) % 256 ∧
    ∀ k, k ≠ 15 → k ≠ (chip8.opcode.splitXY s.opcode).1 →
      (chip8.CpuImpl.opcodeShlRegister s).regs.vx k = s.regs.vx k := by
  refine ⟨?_, ?_, ?_⟩
  · show chip8.setAt (chip8.setAt s.regs.vx 15
      (s.regs.vx (chip8.opcode.splitXY s.opcode).2 &&& 128))
      (chip8.opcode.splitXY s.opcode).1 _ 15 = _
    rw [chip8.setAt_other _ _ _ _ (Ne.symm hx), chip8.setAt_same]
  · show chip8.setAt (chip8.setAt s.regs.vx 15
      (s.regs.vx (chip8.opcode.splitXY s.opcode).2 &&& 128))
      (chip8.opcode.splitXY s.opcode).1 _ (chip8.opcode.splitXY s.opcode).1 = _
    rw [chip8.setAt_same, chip8.setAt_other _ _ _ _ hy]
  · intro k hk15 hkx
    show chip8.setAt (chip8.setAt s.regs.vx 15
      (s.regs.vx (chip8.opcode.splitXY s.opcode).2 &&& 128))
      (chip8.opcode.splitXY s.opcode).1 _ k = _
    rw [chip8.setAt_other _ _ _ _ hkx, chip8.setAt_other _ _ _ _ hk15]

/-- C6 witness: the amended theorem applied to opcode 0x801E (x = 0,
y = 1) with V[1] = 0x81. -/
theorem claim_C6_amended_shl_flag_not_bit_witness :
    ((chip8.opcode.splitXY 0x801E).1 ≠ 15 ∧ (chip8.opcode.splitXY 0x801E).2 ≠ 15) ∧
    ((chip8.CpuImpl.opcodeShlRegister
        ⟨⟨0x202, fun k => if k = 1 then 0x81 else 0, 0, fun _ => 0, 0, 0, 0⟩,
          fun _ => 0, fun _ => 0, fun _ => false, 0x801E, 0, 0, 0, fun _ => 0, 0⟩).regs.vx 15 =
      (if (1 : Nat) = 1 then (0x81 : Nat) else 0) &&& 128 ∧
    (chip8.CpuImpl.opcodeShlRegister
        ⟨⟨0x202, fun k => if k = 1 then 0x81 else 0, 0, fun _ => 0, 0, 0, 0⟩,
          fun _ => 0, fun _ => 0, fun _ => false, 0x801E, 0, 0, 0, fun _ => 0, 0⟩).regs.vx
        (chip8.opcode.splitXY 0x801E).1 =
      ((if (1 : Nat) = 1 then (0x81 : Nat) else 0) * 2) % 256 ∧
    ∀ k, k ≠ 15 → k ≠ (chip8.opcode.splitXY 0x801E).1 →
      (chip8.CpuImpl.opcodeShlRegister
        ⟨⟨0x202, fun k' => if k' = 1 then 0x81 else 0, 0, fun _ => 0, 0, 0, 0⟩,
          fun _ => 0, fun _ => 0, fun _ => false, 0x801E, 0, 0, 0, fun _ => 0, 0⟩).regs.vx k =
      (if k = 1 then (0x81 : Nat) else 0)) :=
  ⟨⟨by decide, by decide⟩,
    claim_C6_amended_shl_flag_not_bit
      ⟨⟨0x202, fun k => if k = 1 then 0x81 else 0, 0, fun _ => 0, 0, 0, 0⟩,
        fun _ => 0, fun _ => 0, fun _ => false, 0x801E, 0, 0, 0, fun _ => 0, 0⟩
      (by decide) (by decide)⟩

theorem testBit_65280_low : ∀ i < 8, Nat.testBit 65280 i = false := by decide

theorem land_65280_of_lt (r : Nat) (h : r < 256) : r &&& 65280 = 0 := by
  apply Nat.eq_of_testBit_eq
  intro i
  rw [Nat.testBit_and, Nat.zero_testBit]
  rcases Nat.lt_or_ge i 8 with hi | hi
  · rw [testBit_65280_low i hi, Bool.and_false]
  · have h2 : r < 2 ^ i := lt_of_lt_of_le h (by
      calc (256 : Nat) = 2 ^ 8 := by norm_num
        _ ≤ 2 ^ i := Nat.pow_le_pow_right (by norm_num) hi)
    rw [Nat.testBit_lt_two_pow h2, Bool.false_and]

theorem land_65280_ne_zero_iff (sum : Nat) (h : sum < 512) :
    ¬ sum &&& 65280 = 0 ↔ 255 < sum := by
  rcases Nat.lt_or_ge sum 256 with hlt | hge
  · rw [land_65280_of_lt sum hlt]
    simp
    omega
  · constructor
    · intro _
      omega
    · intro _
      have hr : sum - 256 < 256 := by omega
      have hdecomp : sum = 2 ^ 8 * 1 + (sum - 256) := by
        norm_num
        omega
      rw [hdecomp, Nat.mul_add_lt_is_or (show sum - 256 < 2 ^ 8 by
          norm_num
          omega) 1,
        Nat.and_distrib_right, land_65280_of_lt _ hr]
      decide

/-- C8 counterexample: 8XY4 with x = 0xF (opcode 0x8F14), V[0xF] = 1,
V[1] = 1: the sum is 2 ≤ 0xFF, so the claim requires V[0xF] = 0 after
execution, but the code leaves V[0xF] = 2 — the flag write is
overwritten by the sum store when x = 0xF. -/
theorem claim_C8_counterexample :
    (chip8.CpuImpl.opcodeAddRegister
      ⟨⟨0x202, fun k => if k = 15 then 1 else if k = 1 then 1 else 0, 0, fun _ => 0, 0, 0, 0⟩,
        fun _ => 0, fun _ => 0, fun _ => false, 0x8F14, 0, 0, 0, fun _ => 0, 0⟩).regs.vx 15
      = 2 ∧
    (⟨⟨0x202, fun k => if k = 15 then 1 else if k = 1 then 1 else 0, 0, fun _ => 0, 0, 0, 0⟩,
        fun _ => 0, fun _ => 0, fun _ => false, 0x8F14, 0, 0, 0, fun _ => 0,
        0⟩ : chip8.CpuState).regs.vx 15 +
      (⟨⟨0x202, fun k => if k = 15 then 1 else if k = 1 then 1 else 0, 0, fun _ => 0, 0, 0, 0⟩,
        fun _ => 0, fun _ => 0, fun _ => false, 0x8F14, 0, 0, 0, fun _ => 0,
        0⟩ : chip8.CpuState).regs.vx 1 ≤ 255 := by
  refine ⟨rfl, by norm_num⟩

/-- C8 amended: for 8XY4 with byte-valued operands a = V[x], b = V[y],
when x ≠ 0xF the claimed behaviour holds — V[x] becomes (a + b) & 0xFF
and V[0xF] becomes 1 exactly when a + b > 0xFF, else 0 — and every other
register is untouched.  When x = 0xF, however, the carry flag is
overwritten: V[0xF] ends up holding (a + b) & 0xFF instead of the
claimed carry bit. -/
theorem claim_C8_amended_add_flag (s : chip8.CpuState)
    (ha : s.regs.vx (chip8.opcode.splitXY s.opcode).1 < 256)
    (hb : s.regs.vx (chip8.opcode.splitXY s.opcode).2 < 256) :
    ((chip8.opcode.splitXY s.opcode).1 ≠ 15 →
      (chip8.CpuImpl.opcodeAddRegister s).regs.vx (chip8.opcode.splitXY s.opcode).1 =
        (s.regs.vx (chip8.opcode.splitXY s.opcode).1 +
          s.regs.vx (chip8.opcode.splitXY s.opcode).2) % 256 ∧
      (chip8.CpuImpl.opcodeAddRegister s).regs.vx 15 =
        if 255 < s.regs.vx (chip8.opcode.splitXY s.opcode).1 +
          s.regs.vx (chip8.opcode.splitXY s.opcode).2 then 1 else 0) ∧
    ((chip8.opcode.splitXY s.opcode).1 = 15 →
      (chip8.CpuImpl.opcodeAddRegister s).regs.vx 15 =
        (s.regs.vx (chip8.opcode.splitXY s.opcode).1 +
          s.regs.vx (chip8.opcode.splitXY s.opcode).2) % 256) ∧
    ∀ k, k ≠ 15 → k ≠ (chip8.opcode.splitXY s.opcode).1 →
      (chip8.CpuImpl.opcodeAddRegister s).regs.vx k = s.regs.vx k := by
  have hsum : (s.regs.vx (chip8.opcode.splitXY s.opcode).1 +
      s.regs.vx (chip8.opcode.splitXY s.opcode).2) % 65536 =
      s.regs.vx (chip8.opcode.splitXY s.opcode).1 +
      s.regs.vx (chip8.opcode.splitXY s.opcode).2 := Nat.mod_eq_of_lt (by omega)
  have hflag : (if ¬ (s.regs.vx (chip8.opcode.splitXY s.opcode).1 +
      s.regs.vx (chip8.opcode.splitXY s.opcode).2) % 65536 &&& 0xFF00 = 0
      then (1 : Nat) else 0) =
      if 255 < s.regs.vx (chip8.opcode.splitXY s.opcode).1 +
        s.regs.vx (chip8.opcode.splitXY s.opcode).2 then 1 else 0 := by
    rw [hsum]
    rw [if_congr (land_65280_ne_zero_iff _ (by omega)) rfl rfl]
  have hlow : (s.regs.vx (chip8.opcode.splitXY s.opcode).1 +
      s.regs.vx (chip8.opcode.splitXY s.opcode).2) % 65536 &&& 0xFF =
      (s.regs.vx (chip8.opcode.splitXY s.opcode).1 +
        s.regs.vx (chip8.opcode.splitXY s.opcode).2) % 256 := by
    rw [hsum, chip8.opcode.and_255_eq_mod]
  refine ⟨?_, ?_, ?_⟩
  · intro hx
    constructor
    · show chip8.setAt (chip8.setAt s.regs.vx 15 _) (chip8.opcode.splitXY s.opcode).1 _
        (chip8.opcode.splitXY s.opcode).1 = _
      rw [chip8.setAt_same, hlow]
    · show chip8.setAt (chip8.setAt s.regs.vx 15 _) (chip8.opcode.splitXY s.opcode).1 _ 15 = _
      rw [chip8.setAt_other _ _ _ _ (Ne.symm hx), chip8.setAt_same, hflag]
  · intro hx
    rw [hx] at hlow
    show chip8.setAt (chip8.setAt s.regs.vx 15 _) (chip8.opcode.splitXY s.opcode).1 _ 15 = _
    rw [hx, chip8.setAt_same, hlow]
  · intro k hk15 hkx
    show chip8.setAt (chip8.setAt s.regs.vx 15 _) (chip8.opcode.splitXY s.opcode).1 _ k = _
    rw [chip8.setAt_other _ _ _ _ hkx, chip8.setAt_other _ _ _ _ hk15]

/-- C8 witness: the amended theorem applied to opcode 0x8124 (x = 1,
y = 2) with V[1] = 0xC2, V[2] = 0x53 (the carry case of the spec's own
end-to-end scenario). -/
theorem claim_C8_amended_add_flag_witness :
    ((if (1 : Nat) = 1 then (0xC2 : Nat) else if (1 : Nat) = 2 then 0x53 else 0) < 256 ∧
      (if (2 : Nat) = 1 then (0xC2 : Nat) else if (2 : Nat) = 2 then 0x53 else 0) < 256) ∧
    (((chip8.opcode.splitXY 0x8124).1 ≠ 15 →
      (chip8.CpuImpl.opcodeAddRegister
        ⟨⟨0x202, fun k => if k = 1 then 0xC2 else if k = 2 then 0x53 else 0, 0,
          fun _ => 0, 0, 0, 0⟩, fun _ => 0, fun _ => 0, fun _ => false, 0x8124,
          0, 0, 0, fun _ => 0, 0⟩).regs.vx (chip8.opcode.splitXY 0x8124).1 =
        ((if (1 : Nat) = 1 then (0xC2 : Nat) else if (1 : Nat) = 2 then 0x53 else 0) +
          (if (2 : Nat) = 1 then (0xC2 : Nat) else if (2 : Nat) = 2 then 0x53 else 0)) % 256 ∧
      (chip8.CpuImpl.opcodeAddRegister
        ⟨⟨0x202, fun k => if k = 1 then 0xC2 else if k = 2 then 0x53 else 0, 0,
          fun _ => 0, 0, 0, 0⟩, fun _ => 0, fun _ => 0, fun _ => false, 0x8124,
          0, 0, 0, fun _ => 0, 0⟩).regs.vx 15 =
        if 255 < (if (1 : Nat) = 1 then (0xC2 : Nat) else if (1 : Nat) = 2 then 0x53 else 0) +
          (if (2 : Nat) = 1 then (0xC2 : Nat) else if (2 : Nat) = 2 then 0x53 else 0)
        then 1 else 0) ∧
    ((chip8.opcode.splitXY 0x8124).1 = 15 →
      (chip8.CpuImpl.opcodeAddRegister
        ⟨⟨0x202, fun k => if k = 1 then 0xC2 else if k = 2 then 0x53 else 0, 0,
          fun _ => 0, 0, 0, 0⟩, fun _ => 0, fun _ => 0, fun _ => false, 0x8124,
          0, 0, 0, fun _ => 0, 0⟩).regs.vx 15 =
        ((if (1 : Nat) = 1 then (0xC2 : Nat) else if (1 : Nat) = 2 then 0x53 else 0) +
          (if (2 : Nat) = 1 then (0xC2 : Nat) else if (2 : Nat) = 2 then 0x53 else 0)) % 256) ∧
    ∀ k, k ≠ 15 → k ≠ (chip8.opcode.splitXY 0x8124).1 →
      (chip8.CpuImpl.opcodeAddRegister
        ⟨⟨0x202, fun k' => if k' = 1 then 0xC2 else if k' = 2 then 0x53 else 0, 0,
          fun _ => 0, 0, 0, 0⟩, fun _ => 0, fun _ => 0, fun _ => false, 0x8124,
          0, 0, 0, fun _ => 0, 0⟩).regs.vx k =
        (if k = 1 then (0xC2 : Nat) else if k = 2 then 0x53 else 0)) :=
  ⟨⟨by norm_num, by norm_num⟩,
    claim_C8_amended_add_flag
      ⟨⟨0x202, fun k => if k = 1 then 0xC2 else if k = 2 then 0x53 else 0, 0,
        fun _ => 0, 0, 0, 0⟩, fun _ => 0, fun _ => 0, fun _ => false, 0x8124,
        0, 0, 0, fun _ => 0, 0⟩ (by decide) (by decide)⟩

/-- C5 counterexample: two CPU steps executed at the SAME host tick
(Δt = 0, so the claimed bound is floor(0 · 60 / 1000) = 0) decrement DT
from 2 to 0, because `updateTimer` runs once per step and the timer
anchors are never advanced.  (The program is two ANNN instructions,
which never write the timers.) -/
theorem claim_C5_counterexample :
    (chip8.CpuImpl.update (chip8.CpuImpl.update
      ⟨⟨0x200, fun _ => 0, 0, fun _ => 0, 0, 2, 0⟩, fun _ => 0xA1, fun _ => 0,
        fun _ => false, 0, 16, 0, 0, fun _ => 0, 0⟩)).regs.dt = 0 ∧
    (⟨⟨0x200, fun _ => 0, 0, fun _ => 0, 0, 2, 0⟩, fun _ => 0xA1, fun _ => 0,
        fun _ => false, 0, 16, 0, 0, fun _ => 0, 0⟩ : chip8.CpuState).regs.dt = 2 ∧
    (chip8.CpuImpl.update (chip8.CpuImpl.update
      ⟨⟨0x200, fun _ => 0, 0, fun _ => 0, 0, 2, 0⟩, fun _ => 0xA1, fun _ => 0,
        fun _ => false, 0, 16, 0, 0, fun _ => 0, 0⟩)).tick =
      (⟨⟨0x200, fun _ => 0, 0, fun _ => 0, 0, 2, 0⟩, fun _ => 0xA1, fun _ => 0,
        fun _ => false, 0, 16, 0, 0, fun _ => 0, 0⟩ : chip8.CpuState).tick := by
  refine ⟨rfl, rfl, rfl⟩

/-- C5 amended: per `updateTimer` call, DT and ST never increase and
each decreases by at most 1 (staying at 0 once zero); but because the
timer anchors `delayTimerTick_`/`soundTimerTick_` are never advanced,
the decrease over an interval is bounded by the number of CPU steps
taken, not by floor(Δt · 60 / 1000) — the timers are not decoupled from
the instruction rate. -/
theorem claim_C5_amended_timer_bound (s : chip8.CpuState) :
    ((chip8.CpuImpl.updateTimer s).regs.dt = s.regs.dt ∨
      (0 < s.regs.dt ∧ (chip8.CpuImpl.updateTimer s).regs.dt = s.regs.dt - 1)) ∧
    ((chip8.CpuImpl.updateTimer s).regs.st = s.regs.st ∨
      (0 < s.regs.st ∧ (chip8.CpuImpl.updateTimer s).regs.st = s.regs.st - 1)) ∧
    (chip8.CpuImpl.updateTimer s).regs.dt ≤ s.regs.dt ∧
    (chip8.CpuImpl.updateTimer s).regs.st ≤ s.regs.st := by
  have hdt : (chip8.CpuImpl.updateTimer s).regs.dt =
      if chip8.CpuImpl.DELAY_TIMER_TICK_DURATION ≤ chip8.u32sub s.tick s.delayTimerTick
        ∧ 0 < s.regs.dt then s.regs.dt - 1 else s.regs.dt := rfl
  have hst : (chip8.CpuImpl.updateTimer s).regs.st =
      if chip8.CpuImpl.SOUND_TIMER_TICK_DURATION ≤ chip8.u32sub s.tick s.soundTimerTick
        ∧ 0 < s.regs.st then s.regs.st - 1 else s.regs.st := rfl
  rw [hdt, hst]
  refine ⟨?_, ?_, ?_, ?_⟩
  · split
    · rename_i h
      exact Or.inr ⟨h.2, rfl⟩
    · exact Or.inl rfl
  · split
    · rename_i h
      exact Or.inr ⟨h.2, rfl⟩
    · exact Or.inl rfl
  · split
    · omega
    · omega
  · split
    · omega
    · omega

/-- C3 counterexample: executing FX0A does NOT suspend the machine.
With the program `F3 0A 6A AB` at 0x200 and no key ever pressed, the
step after the FX0A still fetches and executes the following
instruction: after two steps V[A] = 0xAB and PC = 0x204, where the claim
requires the VM to stop fetching (PC parked after the FX0A) until a key
is pressed. -/
theorem claim_C3_counterexample :
    (chip8.CpuImpl.update (chip8.CpuImpl.update chip8.fx0aProgramState)).regs.vx 10 = 0xAB ∧
    (chip8.CpuImpl.update (chip8.CpuImpl.update chip8.fx0aProgramState)).regs.pc = 0x204 ∧
    (∀ k, chip8.fx0aProgramState.keys k = false) ∧
    chip8.fx0aProgramState.regs.pc = 0x200 := by
  refine ⟨rfl, rfl, fun k => rfl, rfl⟩

/-- C3 amended: FX0A is not implemented.  Its canonical key 0xF00A has
no entry in the instruction table, so the dispatcher silently ignores
it: the handler stage leaves the whole state unchanged (the fetch has
already advanced PC by 2) and execution continues on the next step with
no key-wait suspension — no suspension state exists in the machine. -/
theorem claim_C3_amended_fx0a_unimplemented (s : chip8.CpuState)
    (h : chip8.opcode.decodeInstruction s.opcode = 0xF00A) :
    chip8.CpuImpl.executeInstruction s = s := by
  simp only [chip8.CpuImpl.executeInstruction, h]
  norm_num

/-- C3 witness: the dispatch no-op applied to the latched opcode 0xF30A. -/
theorem claim_C3_amended_fx0a_unimplemented_witness :
    chip8.opcode.decodeInstruction chip8.fx0aOpcodeState.opcode = 0xF00A ∧
    chip8.CpuImpl.executeInstruction chip8.fx0aOpcodeState = chip8.fx0aOpcodeState :=
  ⟨rfl, claim_C3_amended_fx0a_unimplemented chip8.fx0aOpcodeState rfl⟩

/-- C10 counterexample: a single CPU step executing ANNN does NOT leave
ST unchanged: with ST = 1, tick 16 and the (never-moved) sound anchor at
0, the step's timer update decrements ST to 0, while the claim lists ST
among the components left unchanged by an ANNN step. -/
theorem claim_C10_counterexample :
    (chip8.CpuImpl.update chip8.annnSoundState).regs.st = 0 ∧
    chip8.annnSoundState.regs.st = 1 ∧
    (chip8.CpuImpl.update chip8.annnSoundState).opcode &&& 0xF000 = 0xA000 := by
  refine ⟨rfl, rfl, rfl⟩

/-- C10 amended: a step whose fetched opcode has top nibble 0xA sets I
to the opcode's low 12 bits and advances PC by exactly 2 (mod 2^16); the
V registers, SP, the stack, the memory and the framebuffer are left
unchanged; DT is unchanged whenever less than one (integer) 60 Hz period
— 16 ms — has elapsed since the delay anchor, and likewise ST is
unchanged whenever less than one period has elapsed since the sound
anchor (ST is NOT unconditionally preserved, contrary to the claim). -/
theorem claim_C10_amended_annn_frame (s : chip8.CpuState)
    (h : chip8.CpuImpl.memLoadWord s s.regs.pc &&& 0xF000 = 0xA000) :
    (chip8.CpuImpl.update s).regs.i =
      chip8.opcode.splitNNN (chip8.CpuImpl.memLoadWord s s.regs.pc) ∧
    (chip8.CpuImpl.update s).regs.pc = (s.regs.pc + 2) % 65536 ∧
    (∀ k, (chip8.CpuImpl.update s).regs.vx k = s.regs.vx k) ∧
    (chip8.CpuImpl.update s).regs.sp = s.regs.sp ∧
    (∀ k, (chip8.CpuImpl.update s).regs.stack k = s.regs.stack k) ∧
    (chip8.CpuImpl.update s).mem = s.mem ∧
    (chip8.CpuImpl.update s).fb = s.fb ∧
    (chip8.u32sub s.tick s.delayTimerTick < chip8.CpuImpl.DELAY_TIMER_TICK_DURATION →
      (chip8.CpuImpl.update s).regs.dt = s.regs.dt) ∧
    (chip8.u32sub s.tick s.soundTimerTick < chip8.CpuImpl.SOUND_TIMER_TICK_DURATION →
      (chip8.CpuImpl.update s).regs.st = s.regs.st) := by
  have hkey : chip8.opcode.decodeInstruction (chip8.CpuImpl.memLoadWord s s.regs.pc)
      = 0xA000 := by
    simp only [chip8.opcode.decodeInstruction, h]
    norm_num
  have hstep : chip8.CpuImpl.update s =
      chip8.CpuImpl.updateTimer (chip8.CpuImpl.opcodeLoadIRegister
        { s with
          opcode := chip8.CpuImpl.memLoadWord s s.regs.pc,
          regs := { s.regs with pc := (s.regs.pc + 2) % 65536 } }) := by
    unfold chip8.CpuImpl.update
    simp only [chip8.CpuImpl.executeInstruction, hkey]
    norm_num
  rw [hstep]
  refine ⟨rfl, rfl, fun k => rfl, rfl, fun k => rfl, rfl, rfl, ?_, ?_⟩
  · intro hd
    show (if chip8.CpuImpl.DELAY_TIMER_TICK_DURATION ≤
        chip8.u32sub s.tick s.delayTimerTick ∧ 0 < s.regs.dt
      then s.regs.dt - 1 else s.regs.dt) = s.regs.dt
    exact if_neg (fun hc => Nat.lt_irrefl _ (Nat.lt_of_le_of_lt hc.1 hd))
  · intro hd
    show (if chip8.CpuImpl.SOUND_TIMER_TICK_DURATION ≤
        chip8.u32sub s.tick s.soundTimerTick ∧ 0 < s.regs.st
      then s.regs.st - 1 else s.regs.st) = s.regs.st
    exact if_neg (fun hc => Nat.lt_irrefl _ (Nat.lt_of_le_of_lt hc.1 hd))

/-- C10 witness: the frame theorem applied to the concrete ANNN state at
tick 5 (opcode 0xA1A1, DT = 7, ST = 3). -/
theorem claim_C10_amended_annn_frame_witness :
    chip8.CpuImpl.memLoadWord chip8.annnSampleState chip8.annnSampleState.regs.pc
      &&& 0xF000 = 0xA000 ∧
    ((chip8.CpuImpl.update chip8.annnSampleState).regs.i =
      chip8.opcode.splitNNN (chip8.CpuImpl.memLoadWord chip8.annnSampleState
        chip8.annnSampleState.regs.pc) ∧
    (chip8.CpuImpl.update chip8.annnSampleState).regs.pc =
      (chip8.annnSampleState.regs.pc + 2) % 65536 ∧
    (∀ k, (chip8.CpuImpl.update chip8.annnSampleState).regs.vx k =
      chip8.annnSampleState.regs.vx k) ∧
    (chip8.CpuImpl.update chip8.annnSampleState).regs.sp =
      chip8.annnSampleState.regs.sp ∧
    (∀ k, (chip8.CpuImpl.update chip8.annnSampleState).regs.stack k =
      chip8.annnSampleState.regs.stack k) ∧
    (chip8.CpuImpl.update chip8.annnSampleState).mem = chip8.annnSampleState.mem ∧
    (chip8.CpuImpl.update chip8.annnSampleState).fb = chip8.annnSampleState.fb ∧
    (chip8.u32sub chip8.annnSampleState.tick chip8.annnSampleState.delayTimerTick <
        chip8.CpuImpl.DELAY_TIMER_TICK_DURATION →
      (chip8.CpuImpl.update chip8.annnSampleState).regs.dt =
        chip8.annnSampleState.regs.dt) ∧
    (chip8.u32sub chip8.annnSampleState.tick chip8.annnSampleState.soundTimerTick <
        chip8.CpuImpl.SOUND_TIMER_TICK_DURATION →
      (chip8.CpuImpl.update chip8.annnSampleState).regs.st =
        chip8.annnSampleState.regs.st)) :=
  ⟨rfl, claim_C10_amended_annn_frame chip8.annnSampleState rfl⟩

theorem blit_foldl_true (x : Nat) (ops : List (Nat × Nat × Nat)) :
    ∀ fb : Nat → Nat, (ops.foldl (chip8.GpuImpl.blitStep x) (fb, true)).2 = true := by
  induction ops with
  | nil =>
    intro fb
    rfl
  | cons op rest ih =>
    intro fb
    rw [List.foldl_cons]
    have hpair : chip8.GpuImpl.blitStep x (fb, true) op =
        ((chip8.GpuImpl.blitStep x (fb, true) op).1, true) := by
      simp [chip8.GpuImpl.blitStep]
    rw [hpair]
    exact ih _

theorem blit_foldl_change (x : Nat) (ops : List (Nat × Nat × Nat)) :
    ∀ (fb : Nat → Nat) (er : Bool) (a : Nat),
      (ops.foldl (chip8.GpuImpl.blitStep x) (fb, er)).1 a = 0 → fb a ≠ 0 →
      (ops.foldl (chip8.GpuImpl.blitStep x) (fb, er)).2 = true := by
  induction ops with
  | nil =>
    intro fb er a h1 h2
    exact absurd h1 h2
  | cons op rest ih =>
    intro fb er a h1 h2
    obtain ⟨yP, rB, bO⟩ := op
    rw [List.foldl_cons] at h1 ⊢
    have hstep : chip8.GpuImpl.blitStep x (fb, er) (yP, rB, bO) =
        (chip8.setAt fb (chip8.GpuImpl.computeLinearAddress ((x + bO) % 256) yP)
            (Nat.xor (fb (chip8.GpuImpl.computeLinearAddress ((x + bO) % 256) yP))
              (chip8.GpuImpl.spriteValueAt rB bO)),
          er || decide (Nat.xor (fb (chip8.GpuImpl.computeLinearAddress ((x + bO) % 256) yP))
              (chip8.GpuImpl.spriteValueAt rB bO) = 0)) := rfl
    rw [hstep] at h1 ⊢
    by_cases hac : a = chip8.GpuImpl.computeLinearAddress ((x + bO) % 256) yP
    · by_cases hp : Nat.xor (fb (chip8.GpuImpl.computeLinearAddress ((x + bO) % 256) yP))
          (chip8.GpuImpl.spriteValueAt rB bO) = 0
      · rw [show (er || decide (Nat.xor
            (fb (chip8.GpuImpl.computeLinearAddress ((x + bO) % 256) yP))
            (chip8.GpuImpl.spriteValueAt rB bO) = 0)) = true by simp [hp]]
        exact blit_foldl_true x rest _
      · refine ih _ _ a h1 ?_
        rw [hac, chip8.setAt_same]
        exact hp
    · refine ih _ _ a h1 ?_
      rw [chip8.setAt_other _ _ _ _ hac]
      exact h2

/-- If the blit turned a nonzero framebuffer byte into zero, `drawSprite`
reports `erased = true`. -/
theorem drawSprite_erased_of_change (x y : Nat) (sprite : List Nat) (fb : Nat → Nat)
    (a : Nat) (h1 : (chip8.GpuImpl.drawSprite x y sprite fb).1 a = 0) (h2 : fb a ≠ 0) :
    (chip8.GpuImpl.drawSprite x y sprite fb).2 = true :=
  blit_foldl_change (x % 256) (chip8.GpuImpl.blitOps (y % 256) sprite) fb false a h1 h2

/-- C1 counterexample: drawing the one-byte sprite 0x80 on an all-dark
framebuffer sets V[0xF] to 1 even though no previously-lit pixel was
turned off (there were no lit pixels at all) — `drawSprite` flags any
XOR result byte that is zero, including a 0 sprite bit over an unlit
pixel.  The claim requires V[0xF] = 0 here. -/
theorem claim_C1_counterexample :
    (chip8.CpuImpl.opcodeDraw chip8.drawNoLitState).regs.vx 15 = 1 ∧
    (∀ a, chip8.drawNoLitState.fb a = 0) ∧
    chip8.drawNoLitState.regs.vx 15 = 0 := by
  refine ⟨rfl, fun a => rfl, rfl⟩

/-- C1 amended: the DXYN collision flag is one-sided.  V[0xF] is set to
1 when `drawSprite` reports an erased pixel — which happens whenever
some XOR result byte is zero, in particular whenever a previously-lit
pixel is turned off, but also for a 0 sprite bit over an unlit pixel —
and otherwise V[0xF] is left unchanged (it is never written with 0).
Registers other than V[0xF] are untouched. -/
theorem claim_C1_amended_draw_flag (s : chip8.CpuState) :
    ((chip8.CpuImpl.opcodeDraw s).regs.vx 15 = 1 ∨
      (chip8.CpuImpl.opcodeDraw s).regs.vx 15 = s.regs.vx 15) ∧
    (∀ k, k ≠ 15 → (chip8.CpuImpl.opcodeDraw s).regs.vx k = s.regs.vx k) ∧
    ∀ a, (chip8.CpuImpl.opcodeDraw s).fb a = 0 → s.fb a ≠ 0 →
      (chip8.CpuImpl.opcodeDraw s).regs.vx 15 = 1 := by
  by_cases hr : (chip8.GpuImpl.drawSprite
      (s.regs.vx (chip8.opcode.splitXYN s.opcode).1)
      (s.regs.vx (chip8.opcode.splitXYN s.opcode).2.1)
      ((List.range (chip8.opcode.splitXYN s.opcode).2.2).map (fun offset =>
        chip8.CpuImpl.memLoadByte s (s.regs.i + offset)))
      s.fb).2 = true
  · have hd : chip8.CpuImpl.opcodeDraw s =
        { s with
          fb := (chip8.GpuImpl.drawSprite
            (s.regs.vx (chip8.opcode.splitXYN s.opcode).1)
            (s.regs.vx (chip8.opcode.splitXYN s.opcode).2.1)
            ((List.range (chip8.opcode.splitXYN s.opcode).2.2).map (fun offset =>
              chip8.CpuImpl.memLoadByte s (s.regs.i + offset)))
            s.fb).1,
          regs := { s.regs with vx := chip8.setAt s.regs.vx 15 1 } } := by
      simp only [chip8.CpuImpl.opcodeDraw, hr, if_true]
    rw [hd]
    exact ⟨Or.inl (show chip8.setAt s.regs.vx 15 1 15 = 1 from chip8.setAt_same _ _ _),
      fun k hk =>
        show chip8.setAt s.regs.vx 15 1 k = s.regs.vx k from chip8.setAt_other _ _ _ _ hk,
      fun a _ _ => show chip8.setAt s.regs.vx 15 1 15 = 1 from chip8.setAt_same _ _ _⟩
  · rw [Bool.not_eq_true] at hr
    have hd : chip8.CpuImpl.opcodeDraw s =
        { s with
          fb := (chip8.GpuImpl.drawSprite
            (s.regs.vx (chip8.opcode.splitXYN s.opcode).1)
            (s.regs.vx (chip8.opcode.splitXYN s.opcode).2.1)
            ((List.range (chip8.opcode.splitXYN s.opcode).2.2).map (fun offset =>
              chip8.CpuImpl.memLoadByte s (s.regs.i + offset)))
            s.fb).1 } := by
      simp [chip8.CpuImpl.opcodeDraw, hr]
    rw [hd]
    refine ⟨Or.inr rfl, fun k hk => rfl, ?_⟩
    intro a h1 h2
    have herased := drawSprite_erased_of_change
      (s.regs.vx (chip8.opcode.splitXYN s.opcode).1)
      (s.regs.vx (chip8.opcode.splitXYN s.opcode).2.1)
      ((List.range (chip8.opcode.splitXYN s.opcode).2.2).map (fun offset =>
        chip8.CpuImpl.memLoadByte s (s.regs.i + offset)))
      s.fb a h1 h2
    rw [hr] at herased
    exact absurd herased (by norm_num)

/-- C1 witness: the amended theorem's erasure direction applied to the
concrete draw that clears the lit pixel at framebuffer address 1. -/
theorem claim_C1_amended_draw_flag_witness :
    (chip8.CpuImpl.opcodeDraw chip8.drawEraseState).fb 1 = 0 ∧
    chip8.drawEraseState.fb 1 ≠ 0 ∧
    (chip8.CpuImpl.opcodeDraw chip8.drawEraseState).regs.vx 15 = 1 :=
  ⟨rfl, by decide,
    (claim_C1_amended_draw_flag chip8.drawEraseState).2.2 1 rfl (by decide)⟩
